import Mathlib

/-!
Shallow embedding of `src/calendar.js`: a greedy calendar layout algorithm.

The JavaScript code keeps mutable `Event` objects shared between the
calendar's `events_calculated` (per-column cells) and `collision_clusters`
structures.  We model the mutable heap explicitly: every event is identified
by its index `id` in a `store : List EventData`, and the cells, clusters and
the remaining-events list hold ids.  Reference equality of JS objects becomes
equality of ids.

JS numbers are modelled as exact rationals `Q`, represented as explicit
numerator/denominator pairs with comparisons by cross-multiplication (the
algorithm only ever divides the fixed container width by a column count and
multiplies/adds, so exact rational arithmetic reflects the intended
real-number semantics; every rational the program constructs has a positive
denominator).

Fallible JS operations are modelled with `Option`: `none` stands for a thrown
`TypeError` (e.g. `undefined.forEach` when `events_calculated[column-1]` does
not exist, or `this.collision_clusters[undefined].push`).
-/

namespace CalendarJS

/-- Exact rationals as numerator/denominator pairs (not necessarily in lowest
terms).  Values built by the embedded program always have a positive
denominator. -/
structure Q where
  num : Int
  den : Int
  deriving DecidableEq

namespace Q

instance : OfNat Q n := ⟨⟨(n : Int), 1⟩⟩

instance : NatCast Q := ⟨fun n => ⟨(n : Int), 1⟩⟩

instance : IntCast Q := ⟨fun n => ⟨n, 1⟩⟩

/-- `a ≤ b` by cross-multiplication (agrees with the rational order whenever
both denominators are positive). -/
protected def le (a b : Q) : Prop := a.num * b.den ≤ b.num * a.den

/-- `a < b` by cross-multiplication. -/
protected def lt (a b : Q) : Prop := a.num * b.den < b.num * a.den

/-- Value equality `a == b` (JS number equality), as opposed to the
representation equality `a = b`. -/
protected def eqv (a b : Q) : Prop := a.num * b.den = b.num * a.den

instance : LE Q := ⟨Q.le⟩

instance : LT Q := ⟨Q.lt⟩

instance (a b : Q) : Decidable (a ≤ b) := Int.decLe _ _

instance (a b : Q) : Decidable (a < b) := Int.decLt _ _

instance (a b : Q) : Decidable (a.eqv b) := Int.instDecidableEq _ _

protected def add (a b : Q) : Q := ⟨a.num * b.den + b.num * a.den, a.den * b.den⟩

protected def sub (a b : Q) : Q := ⟨a.num * b.den - b.num * a.den, a.den * b.den⟩

protected def mul (a b : Q) : Q := ⟨a.num * b.num, a.den * b.den⟩

protected def div (a b : Q) : Q := ⟨a.num * b.den, a.den * b.num⟩

instance : Add Q := ⟨Q.add⟩

instance : Sub Q := ⟨Q.sub⟩

instance : Mul Q := ⟨Q.mul⟩

instance : Div Q := ⟨Q.div⟩

@[simp] lemma add_num (a b : Q) : (a + b).num = a.num * b.den + b.num * a.den := rfl

@[simp] lemma add_den (a b : Q) : (a + b).den = a.den * b.den := rfl

@[simp] lemma sub_num (a b : Q) : (a - b).num = a.num * b.den - b.num * a.den := rfl

@[simp] lemma sub_den (a b : Q) : (a - b).den = a.den * b.den := rfl

@[simp] lemma mul_num (a b : Q) : (a * b).num = a.num * b.num := rfl

@[simp] lemma mul_den (a b : Q) : (a * b).den = a.den * b.den := rfl

@[simp] lemma div_num (a b : Q) : (a / b).num = a.num * b.den := rfl

@[simp] lemma div_den (a b : Q) : (a / b).den = a.den * b.num := rfl

@[simp] lemma natCast_num (n : ℕ) : (n : Q).num = (n : Int) := rfl

@[simp] lemma natCast_den (n : ℕ) : (n : Q).den = 1 := rfl

@[simp] lemma ofNat_num (n : ℕ) [n.AtLeastTwo] :
    (no_index (OfNat.ofNat n) : Q).num = OfNat.ofNat n := rfl

@[simp] lemma ofNat_den (n : ℕ) [n.AtLeastTwo] :
    (no_index (OfNat.ofNat n) : Q).den = 1 := rfl

@[simp] lemma zero_num : (0 : Q).num = 0 := rfl

@[simp] lemma zero_den : (0 : Q).den = 1 := rfl

@[simp] lemma one_num : (1 : Q).num = 1 := rfl

@[simp] lemma one_den : (1 : Q).den = 1 := rfl

lemma le_def (a b : Q) : a ≤ b ↔ a.num * b.den ≤ b.num * a.den := Iff.rfl

lemma lt_def (a b : Q) : a < b ↔ a.num * b.den < b.num * a.den := Iff.rfl

lemma eqv_def (a b : Q) : a.eqv b ↔ a.num * b.den = b.num * a.den := Iff.rfl

/-- Cross-multiplied transitivity `a ≤ b → b < c → a < c`; needs positive
denominators. -/
lemma lt_of_le_lt {a b c : Q} (ha : 0 < a.den) (hb : 0 < b.den) (hc : 0 < c.den)
    (h1 : a ≤ b) (h2 : b < c) : a < c := by
  rw [le_def] at h1
  rw [lt_def] at h2 ⊢
  nlinarith

/-- Cross-multiplied transitivity `a < b → b ≤ c → a < c`; needs positive
denominators. -/
lemma lt_of_lt_le {a b c : Q} (ha : 0 < a.den) (hb : 0 < b.den) (hc : 0 < c.den)
    (h1 : a < b) (h2 : b ≤ c) : a < c := by
  rw [lt_def] at h1 ⊢
  rw [le_def] at h2
  nlinarith

end Q

/-- A raw input record `{start: number, end: number}` (JS `end` is a reserved
word in Lean, rendered as `stop`). -/
structure RawEvent where
  start : Q
  stop : Q
  deriving DecidableEq

/-- The mutable state of one JS `Event` object: `start`/`end` are copied from
the raw record, `left = 0` and `width = calendar.width` initially, the
`collisions` array holds (ids of) directly colliding already-placed events,
and `column` starts at 1.  The `id` field models the object's identity. -/
structure EventData where
  id : Nat
  start : Q
  stop : Q
  left : Q
  width : Q
  collisions : List Nat
  column : Nat
  deriving DecidableEq

instance : Inhabited EventData :=
  ⟨{ id := 0, start := 0, stop := 0, left := 0, width := 600, collisions := [], column := 1 }⟩

/-- The `Calendar` object: fixed `width` (600), the remaining not-yet-placed
events (ids, in sorted order), the two-dimensional `events_calculated` array
(one cell per column, ids in placement order), the `collision_clusters`
array, and the heap `store` of all event objects. -/
structure Calendar where
  width : Q
  store : List EventData
  events : List Nat
  events_calculated : List (List Nat)
  collision_clusters : List (List Nat)
  deriving DecidableEq

/-- Dereference an event id in the calendar's heap. -/
def getEv (cal : Calendar) (i : Nat) : EventData :=
  cal.store.getD i default

/-- Overwrite the event object with id `i` (models mutation of a JS object). -/
def setEv (cal : Calendar) (i : Nat) (e : EventData) : Calendar :=
  { cal with store := cal.store.set i e }

/-- `Event.prototype.checkCollision`: the four-disjunct overlap test of the
source, verbatim. -/
def checkCollision (a b : EventData) : Bool :=
  (decide (a.start ≤ b.start) && decide (b.start < a.stop)) ||
  (decide (a.start < b.stop) && decide (b.stop ≤ a.stop)) ||
  (decide (b.start ≤ a.start) && decide (a.start < b.stop)) ||
  (decide (b.start < a.stop) && decide (a.stop ≤ b.stop))

/-- `Calendar.prototype.getCollidingEvents`: filter the cell
`events_calculated[column-1]` by collision with `event`.  In JS a missing
cell is `undefined` and `undefined.forEach` throws; this is the `none`
result. -/
def getCollidingEvents (cal : Calendar) (ev : EventData) (column : Nat) :
    Option (List Nat) :=
  (cal.events_calculated.get? (column - 1)).map fun cell =>
    cell.filter fun cid => checkCollision ev (getEv cal cid)

/-- The global `removeDuplicates` helper: keep the first occurrence of each
element (`$.grep` keeping elements whose `$.inArray` index equals their own
position does exactly this). -/
def removeDuplicates (l : List Nat) : List Nat :=
  l.foldl (fun acc x => if acc.contains x then acc else acc ++ [x]) []

/-- The loop `for (var j = this.column-1; j > 0; j--)` inside
`determineCollidingEvents`, accumulating the colliding events of columns
`j, j-1, …, 1` in that order.  A missing cell would throw in JS; it never
occurs in a reachable state and is rendered as the neutral `[]` here. -/
def collectCollisions (cal : Calendar) (ev : EventData) : Nat → List Nat
  | 0 => []
  | j + 1 => ((getCollidingEvents cal ev (j + 1)).getD []) ++ collectCollisions cal ev j

/-- `Event.prototype.determineCollidingEvents`: store the de-duplicated
concatenation of the colliding events of all previous columns. -/
def determineCollidingEvents (cal : Calendar) (evId : Nat) : Calendar :=
  let ev := getEv cal evId
  setEv cal evId
    { ev with collisions := removeDuplicates (ev.collisions ++ collectCollisions cal ev (ev.column - 1)) }

/-- `Calendar.prototype.determineCollisionClusters`.  Returns the updated
calendar together with `new_collision_cluster_index`; `none` models the JS
`TypeError`s: when `collision_clusters_to_merge` is empty the JS reads
`collision_clusters[undefined].push`, and after the (index-shifting) splice
loop the surviving index may point past the end of the array.
`List.eraseIdx` matches `splice(i, 1)` exactly: both remove nothing when `i`
is out of range. -/
def determineCollisionClusters (cal : Calendar) (evId : Nat) :
    Option (Calendar × Nat) :=
  let ev := getEv cal evId
  if ev.collisions.isEmpty then
    some ({ cal with collision_clusters := cal.collision_clusters ++ [[evId]] },
      cal.collision_clusters.length)
  else
    let to_merge := removeDuplicates (ev.collisions.flatMap fun ceId =>
      cal.collision_clusters.enum.filterMap fun p =>
        if p.2.contains ceId then some p.1 else none)
    match to_merge with
    | [] => none
    | new_idx :: rest =>
      let merged := rest.foldl
        (fun cls k => cls.set new_idx (cls.getD new_idx [] ++ cls.getD k [])) cal.collision_clusters
      let spliced := rest.reverse.foldl (fun cls k => cls.eraseIdx k) merged
      if new_idx < spliced.length then
        some ({ cal with
          collision_clusters := spliced.set new_idx (spliced.getD new_idx [] ++ [evId]) }, new_idx)
      else none

/-- `Event.prototype.resize`: `width = calendar.width / column`,
`left = width * (this.column - 1)`. -/
def resize (cal : Calendar) (evId : Nat) (column : Nat) : Calendar :=
  let ev := getEv cal evId
  let w := cal.width / (column : Q)
  setEv cal evId { ev with width := w, left := w * ((ev.column : Q) - 1) }

/-- `this.events_calculated[column-1].push(event)`. -/
def pushToCell (cells : List (List Nat)) (i : Nat) (evId : Nat) : List (List Nat) :=
  cells.set i (cells.getD i [] ++ [evId])

/-- The `forEach ... resize` loop after a cluster merge: resize every member
of cluster `idx` with the current column. -/
def resizeCluster (cal : Calendar) (idx column : Nat) : Calendar :=
  (cal.collision_clusters.getD idx []).foldl (fun c mid => resize c mid column) cal

/-- The first half of the placement branch in `calculateEventPositions`:
push the event into the current column's cell, record its column, and compute
its direct collisions. -/
def placePrep (cal : Calendar) (column : Nat) (evId : Nat) : Calendar :=
  let cal1 := { cal with events_calculated := pushToCell cal.events_calculated (column - 1) evId }
  let cal2 := setEv cal1 evId { getEv cal1 evId with column := column }
  determineCollidingEvents cal2 evId

/-- The body of the placement branch in `calculateEventPositions`: after
`placePrep`, merge the collision clusters (`none` propagates the JS
`TypeError`) and resize every member of the resulting cluster. -/
def placeEvent (cal : Calendar) (column : Nat) (evId : Nat) : Option Calendar :=
  (determineCollisionClusters (placePrep cal column evId) evId).map fun p =>
    resizeCluster p.1 p.2 column

/-- The inner `for` loop of `calculateEventPositions` over the remaining
events: place each event whose collision query in the current column comes
back empty (removing it from the remaining list), keep the others.  Returns
the updated calendar and the list of still-unplaced event ids. -/
def scanEvents (cal : Calendar) (column : Nat) : List Nat → Option (Calendar × List Nat)
  | [] => some (cal, [])
  | evId :: rest =>
    match getCollidingEvents cal (getEv cal evId) column with
    | none => none
    | some colls =>
      if colls.isEmpty then
        match placeEvent cal column evId with
        | none => none
        | some cal' => scanEvents cal' column rest
      else
        (scanEvents cal column rest).map fun p => (p.1, evId :: p.2)

/-- `this.events_calculated[column-1] = []`: overwrite the cell when the
index exists, extend the array by one cell otherwise (in every reachable
state the index equals the current length, so this is exactly the JS
behaviour). -/
def resetCell (cells : List (List Nat)) (i : Nat) : List (List Nat) :=
  if i < cells.length then cells.set i [] else cells ++ [[]]

/-- Outcome of running the layout: normal completion, a thrown `TypeError`,
or exhaustion of the fuel bounding the number of outer column passes (shown
below never to occur once the fuel reaches the number of events). -/
inductive LayoutOutcome where
  | ok (cal : Calendar)
  | crash
  | fuelOut (cal : Calendar)
  deriving DecidableEq

/-- One iteration of the outer `while` loop of `calculateEventPositions`:
reset the current column's cell, then scan the remaining events (the cell
reset does not touch the `events` field, so the scan list is
`cal.events`). -/
def runPass (cal : Calendar) (column : Nat) : Option (Calendar × List Nat) :=
  scanEvents { cal with events_calculated := resetCell cal.events_calculated (column - 1) }
    column cal.events

/-- The outer `while (this.events.length > 0)` loop of
`calculateEventPositions`, with an explicit fuel bounding the number of
column passes. -/
def calcLoop (fuel : Nat) (cal : Calendar) (column : Nat) : LayoutOutcome :=
  if cal.events.isEmpty then .ok cal
  else
    match fuel with
    | 0 => .fuelOut cal
    | fuel' + 1 =>
      match runPass cal column with
      | none => .crash
      | some (cal2, rem) => calcLoop fuel' { cal2 with events := rem } (column + 1)

/-- The `Calendar` constructor: width 600, one event object per raw record
(initial `left = 0`, `width = 600`, `column = 1`, no collisions), nothing
calculated yet. -/
def Calendar.new (l : List RawEvent) : Calendar :=
  { width := 600
    store := l.enum.map fun p =>
      { id := p.1, start := p.2.start, stop := p.2.stop, left := 0, width := 600,
        collisions := [], column := 1 }
    events := List.range l.length
    events_calculated := []
    collision_clusters := [] }

/-- `a` strictly precedes `b` under the comparator of
`Calendar.prototype.sortEvents` (the comparator returns `-1` for `(a, b)`):
ascending by `start`, ties broken by `end` ascending. -/
def sortLt (a b : EventData) : Bool :=
  decide (a.start < b.start) || (!(decide (b.start < a.start)) && decide (a.stop < b.stop))

/-- Insert an id into an already-sorted id list, after every element it does
not strictly precede (so the insertion is stable). -/
def sortedInsert (cal : Calendar) (x : Nat) : List Nat → List Nat
  | [] => [x]
  | y :: ys =>
    if sortLt (getEv cal x) (getEv cal y) then x :: y :: ys else y :: sortedInsert cal x ys

/-- `Calendar.prototype.sortEvents`: a stable sort by `(start, end)`
ascending (stable insertion sort produces the same list as the stable
`Array.prototype.sort` with the source's comparator). -/
def sortEvents (cal : Calendar) : Calendar :=
  { cal with events := cal.events.foldl (fun acc x => sortedInsert cal x acc) [] }

/-- `layOutDay`: build the calendar, sort, and run the placement loop (the
trailing `paintEvents` call only renders the computed state into the DOM and
is outside the layout core).  The fuel is the number of events, which is
proved sufficient below. -/
def layOutDay (l : List RawEvent) : LayoutOutcome :=
  let cal := sortEvents (Calendar.new l)
  calcLoop cal.events.length cal 1

/-- Project the final calendar out of an outcome. -/
def finalCalendar : LayoutOutcome → Option Calendar
  | .ok cal => some cal
  | .crash => none
  | .fuelOut _ => none

/-- The per-event geometry `{start, end, left, width}` of a completed run. -/
def finalGeometry (l : List RawEvent) : Option (List (Q × Q × Q × Q)) :=
  (finalCalendar (layOutDay l)).map fun cal =>
    cal.store.map fun e => (e.start, e.stop, e.left, e.width)

/-! ### Spec-side checkers (formalising the properties the claims assert) -/

/-- The horizontal ranges `[left, left+width)` of two events overlap. -/
def horizontalOverlap (a b : EventData) : Bool :=
  decide (a.left < b.left + b.width) && decide (b.left < a.left + a.width)

/-- Every pair of time-colliding events in the list has disjoint horizontal
ranges. -/
def pairsVisuallyOK : List EventData → Bool
  | [] => true
  | a :: rest =>
    (rest.all fun b => !(checkCollision a b && horizontalOverlap a b)) && pairsVisuallyOK rest

/-- "No visual overlap among collisions" for a calendar's event store. -/
def noVisualOverlap (cal : Calendar) : Bool := pairsVisuallyOK cal.store

/-- Two id lists share no element. -/
def listsDisjoint (a b : List Nat) : Bool := a.all fun i => !(b.contains i)

/-- All lists in the collection are pairwise disjoint. -/
def pairwiseDisjoint : List (List Nat) → Bool
  | [] => true
  | c :: cs => (cs.all fun d => listsDisjoint c d) && pairwiseDisjoint cs

/-- One saturation pass over the event list, `k` times: add every event that
collides with an event already in the set. -/
def growComponent (evs : List EventData) : Nat → List Nat → List Nat
  | 0, s => s
  | k + 1, s => growComponent evs k
      (evs.foldl (fun acc e =>
        if !(acc.contains e.id) && evs.any (fun f => acc.contains f.id && checkCollision e f)
        then acc ++ [e.id] else acc) s)

/-- The connected component of event `i` in the direct-collision graph
(saturating `evs.length` times reaches the fixed point). -/
def component (evs : List EventData) (i : Nat) : List Nat :=
  growComponent evs evs.length [i]

/-- The maximum column among all events transitively connected to event `i`
by direct collisions. -/
def clusterMaxColumn (cal : Calendar) (i : Nat) : Nat :=
  ((component cal.store i).map fun j => (getEv cal j).column).foldl Nat.max 0

/-- Every event's geometry satisfies `width = containerWidth / maxColumn` of
its transitive collision cluster and `left = width * (column - 1)`
(value equality of rationals). -/
def widthLawOK (cal : Calendar) : Bool :=
  cal.store.all fun e =>
    decide (Q.eqv e.width (cal.width / (clusterMaxColumn cal e.id : Q))) &&
    decide (Q.eqv e.left (e.width * ((e.column : Q) - 1)))

/-! ### Small-step equations used to evaluate concrete runs -/

lemma scanEvents_cons_place (cal cal' : Calendar) (column evId : Nat) (rest : List Nat)
    (h1 : getCollidingEvents cal (getEv cal evId) column = some [])
    (h2 : placeEvent cal column evId = some cal') :
    scanEvents cal column (evId :: rest) = scanEvents cal' column rest := by
  rw [scanEvents]
  simp only [h1, h2, List.isEmpty_nil, if_true]

lemma scanEvents_cons_skip (cal : Calendar) (column evId : Nat) (rest colls : List Nat)
    (h1 : getCollidingEvents cal (getEv cal evId) column = some colls)
    (h2 : colls.isEmpty = false) :
    scanEvents cal column (evId :: rest) =
      (scanEvents cal column rest).map fun p => (p.1, evId :: p.2) := by
  rw [scanEvents]
  simp only [h1, h2, Bool.false_eq_true, if_false]

lemma calcLoop_succ_step (fuel : Nat) (cal cal2 next : Calendar) (column : Nat)
    (rem : List Nat) (hne : cal.events.isEmpty = false)
    (h : runPass cal column = some (cal2, rem))
    (hnext : { cal2 with events := rem } = next) :
    calcLoop (fuel + 1) cal column = calcLoop fuel next (column + 1) := by
  rw [calcLoop.eq_def]
  simp only [hne, Bool.false_eq_true, if_false, h, hnext]

lemma calcLoop_done (fuel : Nat) (cal : Calendar) (column : Nat)
    (h : cal.events.isEmpty = true) :
    calcLoop fuel cal column = .ok cal := by
  rw [calcLoop.eq_def]
  simp only [h, if_true]

/-! ### Concrete failing runs (evaluated pass by pass) -/

/-- The concrete failing input. -/
def badC5Input : List RawEvent := [⟨Q.mk 5 1, Q.mk 12 1⟩, ⟨Q.mk 8 1, Q.mk 10 1⟩, ⟨Q.mk 11 1, Q.mk 12 1⟩, ⟨Q.mk 11 1, Q.mk 12 1⟩, ⟨Q.mk 4 1, Q.mk 7 1⟩, ⟨Q.mk 5 1, Q.mk 7 1⟩]

def badC5s1 : Calendar :=
  ⟨Q.mk 600 1,
  [⟨0, Q.mk 5 1, Q.mk 12 1, Q.mk 0 1, Q.mk 600 1, [], 1⟩,
   ⟨1, Q.mk 8 1, Q.mk 10 1, Q.mk 0 1, Q.mk 600 1, [], 1⟩,
   ⟨2, Q.mk 11 1, Q.mk 12 1, Q.mk 0 1, Q.mk 600 1, [], 1⟩,
   ⟨3, Q.mk 11 1, Q.mk 12 1, Q.mk 0 1, Q.mk 600 1, [], 1⟩,
   ⟨4, Q.mk 4 1, Q.mk 7 1, Q.mk 0 1, Q.mk 600 1, [], 1⟩,
   ⟨5, Q.mk 5 1, Q.mk 7 1, Q.mk 0 1, Q.mk 600 1, [], 1⟩],
  [4, 5, 0, 1, 2, 3],
  [], []⟩

lemma badC5_init : sortEvents (Calendar.new badC5Input) = badC5s1 := by decide

def badC5in1 : Calendar :=
  ⟨Q.mk 600 1,
  [⟨0, Q.mk 5 1, Q.mk 12 1, Q.mk 0 1, Q.mk 600 1, [], 1⟩,
   ⟨1, Q.mk 8 1, Q.mk 10 1, Q.mk 0 1, Q.mk 600 1, [], 1⟩,
   ⟨2, Q.mk 11 1, Q.mk 12 1, Q.mk 0 1, Q.mk 600 1, [], 1⟩,
   ⟨3, Q.mk 11 1, Q.mk 12 1, Q.mk 0 1, Q.mk 600 1, [], 1⟩,
   ⟨4, Q.mk 4 1, Q.mk 7 1, Q.mk 0 1, Q.mk 600 1, [], 1⟩,
   ⟨5, Q.mk 5 1, Q.mk 7 1, Q.mk 0 1, Q.mk 600 1, [], 1⟩],
  [4, 5, 0, 1, 2, 3],
  [[]], []⟩

def badC5t1 : Calendar :=
  ⟨Q.mk 600 1,
  [⟨0, Q.mk 5 1, Q.mk 12 1, Q.mk 0 1, Q.mk 600 1, [], 1⟩,
   ⟨1, Q.mk 8 1, Q.mk 10 1, Q.mk 0 1, Q.mk 600 1, [], 1⟩,
   ⟨2, Q.mk 11 1, Q.mk 12 1, Q.mk 0 1, Q.mk 600 1, [], 1⟩,
   ⟨3, Q.mk 11 1, Q.mk 12 1, Q.mk 0 1, Q.mk 600 1, [], 1⟩,
   ⟨4, Q.mk 4 1, Q.mk 7 1, Q.mk 0 1, Q.mk 600 1, [], 1⟩,
   ⟨5, Q.mk 5 1, Q.mk 7 1, Q.mk 0 1, Q.mk 600 1, [], 1⟩],
  [4, 5, 0, 1, 2, 3],
  [[4]], [[4]]⟩

def badC5t2 : Calendar :=
  ⟨Q.mk 600 1,
  [⟨0, Q.mk 5 1, Q.mk 12 1, Q.mk 0 1, Q.mk 600 1, [], 1⟩,
   ⟨1, Q.mk 8 1, Q.mk 10 1, Q.mk 0 1, Q.mk 600 1, [], 1⟩,
   ⟨2, Q.mk 11 1, Q.mk 12 1, Q.mk 0 1, Q.mk 600 1, [], 1⟩,
   ⟨3, Q.mk 11 1, Q.mk 12 1, Q.mk 0 1, Q.mk 600 1, [], 1⟩,
   ⟨4, Q.mk 4 1, Q.mk 7 1, Q.mk 0 1, Q.mk 600 1, [], 1⟩,
   ⟨5, Q.mk 5 1, Q.mk 7 1, Q.mk 0 1, Q.mk 600 1, [], 1⟩],
  [4, 5, 0, 1, 2, 3],
  [[4, 1]], [[4], [1]]⟩

def badC5t3 : Calendar :=
  ⟨Q.mk 600 1,
  [⟨0, Q.mk 5 1, Q.mk 12 1, Q.mk 0 1, Q.mk 600 1, [], 1⟩,
   ⟨1, Q.mk 8 1, Q.mk 10 1, Q.mk 0 1, Q.mk 600 1, [], 1⟩,
   ⟨2, Q.mk 11 1, Q.mk 12 1, Q.mk 0 1, Q.mk 600 1, [], 1⟩,
   ⟨3, Q.mk 11 1, Q.mk 12 1, Q.mk 0 1, Q.mk 600 1, [], 1⟩,
   ⟨4, Q.mk 4 1, Q.mk 7 1, Q.mk 0 1, Q.mk 600 1, [], 1⟩,
   ⟨5, Q.mk 5 1, Q.mk 7 1, Q.mk 0 1, Q.mk 600 1, [], 1⟩],
  [4, 5, 0, 1, 2, 3],
  [[4, 1, 2]], [[4], [1], [2]]⟩

lemma badC5scan1 : scanEvents badC5in1 1 [4, 5, 0, 1, 2, 3] = some (badC5t3, [5, 0, 3]) := by
  have h0 : scanEvents badC5t3 1 ([] : List Nat) = some (badC5t3, []) := rfl
  have h1 : scanEvents badC5t3 1 [3] = some (badC5t3, [3]) := by
    rw [scanEvents_cons_skip badC5t3 1 3 [] [2] (by decide) (by decide), h0]
    rfl
  have h2 : scanEvents badC5t2 1 [2, 3] = some (badC5t3, [3]) := by
    rw [scanEvents_cons_place badC5t2 badC5t3 1 2 [3] (by decide) (by decide)]
    exact h1
  have h3 : scanEvents badC5t1 1 [1, 2, 3] = some (badC5t3, [3]) := by
    rw [scanEvents_cons_place badC5t1 badC5t2 1 1 [2, 3] (by decide) (by decide)]
    exact h2
  have h4 : scanEvents badC5t1 1 [0, 1, 2, 3] = some (badC5t3, [0, 3]) := by
    rw [scanEvents_cons_skip badC5t1 1 0 [1, 2, 3] [4] (by decide) (by decide), h3]
    rfl
  have h5 : scanEvents badC5t1 1 [5, 0, 1, 2, 3] = some (badC5t3, [5, 0, 3]) := by
    rw [scanEvents_cons_skip badC5t1 1 5 [0, 1, 2, 3] [4] (by decide) (by decide), h4]
    rfl
  have h6 : scanEvents badC5in1 1 [4, 5, 0, 1, 2, 3] = some (badC5t3, [5, 0, 3]) := by
    rw [scanEvents_cons_place badC5in1 badC5t1 1 4 [5, 0, 1, 2, 3] (by decide) (by decide)]
    exact h5
  exact h6

lemma badC5pass1 : runPass badC5s1 1 = some (badC5t3, [5, 0, 3]) := badC5scan1

def badC5s2 : Calendar :=
  ⟨Q.mk 600 1,
  [⟨0, Q.mk 5 1, Q.mk 12 1, Q.mk 0 1, Q.mk 600 1, [], 1⟩,
   ⟨1, Q.mk 8 1, Q.mk 10 1, Q.mk 0 1, Q.mk 600 1, [], 1⟩,
   ⟨2, Q.mk 11 1, Q.mk 12 1, Q.mk 0 1, Q.mk 600 1, [], 1⟩,
   ⟨3, Q.mk 11 1, Q.mk 12 1, Q.mk 0 1, Q.mk 600 1, [], 1⟩,
   ⟨4, Q.mk 4 1, Q.mk 7 1, Q.mk 0 1, Q.mk 600 1, [], 1⟩,
   ⟨5, Q.mk 5 1, Q.mk 7 1, Q.mk 0 1, Q.mk 600 1, [], 1⟩],
  [5, 0, 3],
  [[4, 1, 2]], [[4], [1], [2]]⟩

def badC5in2 : Calendar :=
  ⟨Q.mk 600 1,
  [⟨0, Q.mk 5 1, Q.mk 12 1, Q.mk 0 1, Q.mk 600 1, [], 1⟩,
   ⟨1, Q.mk 8 1, Q.mk 10 1, Q.mk 0 1, Q.mk 600 1, [], 1⟩,
   ⟨2, Q.mk 11 1, Q.mk 12 1, Q.mk 0 1, Q.mk 600 1, [], 1⟩,
   ⟨3, Q.mk 11 1, Q.mk 12 1, Q.mk 0 1, Q.mk 600 1, [], 1⟩,
   ⟨4, Q.mk 4 1, Q.mk 7 1, Q.mk 0 1, Q.mk 600 1, [], 1⟩,
   ⟨5, Q.mk 5 1, Q.mk 7 1, Q.mk 0 1, Q.mk 600 1, [], 1⟩],
  [5, 0, 3],
  [[4, 1, 2], []], [[4], [1], [2]]⟩

def badC5t4 : Calendar :=
  ⟨Q.mk 600 1,
  [⟨0, Q.mk 5 1, Q.mk 12 1, Q.mk 0 1, Q.mk 600 1, [], 1⟩,
   ⟨1, Q.mk 8 1, Q.mk 10 1, Q.mk 0 1, Q.mk 600 1, [], 1⟩,
   ⟨2, Q.mk 11 1, Q.mk 12 1, Q.mk 0 1, Q.mk 600 1, [], 1⟩,
   ⟨3, Q.mk 11 1, Q.mk 12 1, Q.mk 0 1, Q.mk 600 1, [], 1⟩,
   ⟨4, Q.mk 4 1, Q.mk 7 1, Q.mk 0 2, Q.mk 600 2, [], 1⟩,
   ⟨5, Q.mk 5 1, Q.mk 7 1, Q.mk 600 2, Q.mk 600 2, [4], 2⟩],
  [5, 0, 3],
  [[4, 1, 2], [5]], [[4, 5], [1], [2]]⟩

def badC5t5 : Calendar :=
  ⟨Q.mk 600 1,
  [⟨0, Q.mk 5 1, Q.mk 12 1, Q.mk 0 1, Q.mk 600 1, [], 1⟩,
   ⟨1, Q.mk 8 1, Q.mk 10 1, Q.mk 0 1, Q.mk 600 1, [], 1⟩,
   ⟨2, Q.mk 11 1, Q.mk 12 1, Q.mk 0 2, Q.mk 600 2, [], 1⟩,
   ⟨3, Q.mk 11 1, Q.mk 12 1, Q.mk 600 2, Q.mk 600 2, [2], 2⟩,
   ⟨4, Q.mk 4 1, Q.mk 7 1, Q.mk 0 2, Q.mk 600 2, [], 1⟩,
   ⟨5, Q.mk 5 1, Q.mk 7 1, Q.mk 600 2, Q.mk 600 2, [4], 2⟩],
  [5, 0, 3],
  [[4, 1, 2], [5, 3]], [[4, 5], [1], [2, 3]]⟩

lemma badC5scan2 : scanEvents badC5in2 2 [5, 0, 3] = some (badC5t5, [0]) := by
  have h0 : scanEvents badC5t5 2 ([] : List Nat) = some (badC5t5, []) := rfl
  have h1 : scanEvents badC5t4 2 [3] = some (badC5t5, []) := by
    rw [scanEvents_cons_place badC5t4 badC5t5 2 3 [] (by decide) (by decide)]
    exact h0
  have h2 : scanEvents badC5t4 2 [0, 3] = some (badC5t5, [0]) := by
    rw [scanEvents_cons_skip badC5t4 2 0 [3] [5] (by decide) (by decide), h1]
    rfl
  have h3 : scanEvents badC5in2 2 [5, 0, 3] = some (badC5t5, [0]) := by
    rw [scanEvents_cons_place badC5in2 badC5t4 2 5 [0, 3] (by decide) (by decide)]
    exact h2
  exact h3

lemma badC5pass2 : runPass badC5s2 2 = some (badC5t5, [0]) := badC5scan2

def badC5s3 : Calendar :=
  ⟨Q.mk 600 1,
  [⟨0, Q.mk 5 1, Q.mk 12 1, Q.mk 0 1, Q.mk 600 1, [], 1⟩,
   ⟨1, Q.mk 8 1, Q.mk 10 1, Q.mk 0 1, Q.mk 600 1, [], 1⟩,
   ⟨2, Q.mk 11 1, Q.mk 12 1, Q.mk 0 2, Q.mk 600 2, [], 1⟩,
   ⟨3, Q.mk 11 1, Q.mk 12 1, Q.mk 600 2, Q.mk 600 2, [2], 2⟩,
   ⟨4, Q.mk 4 1, Q.mk 7 1, Q.mk 0 2, Q.mk 600 2, [], 1⟩,
   ⟨5, Q.mk 5 1, Q.mk 7 1, Q.mk 600 2, Q.mk 600 2, [4], 2⟩],
  [0],
  [[4, 1, 2], [5, 3]], [[4, 5], [1], [2, 3]]⟩

def badC5in3 : Calendar :=
  ⟨Q.mk 600 1,
  [⟨0, Q.mk 5 1, Q.mk 12 1, Q.mk 0 1, Q.mk 600 1, [], 1⟩,
   ⟨1, Q.mk 8 1, Q.mk 10 1, Q.mk 0 1, Q.mk 600 1, [], 1⟩,
   ⟨2, Q.mk 11 1, Q.mk 12 1, Q.mk 0 2, Q.mk 600 2, [], 1⟩,
   ⟨3, Q.mk 11 1, Q.mk 12 1, Q.mk 600 2, Q.mk 600 2, [2], 2⟩,
   ⟨4, Q.mk 4 1, Q.mk 7 1, Q.mk 0 2, Q.mk 600 2, [], 1⟩,
   ⟨5, Q.mk 5 1, Q.mk 7 1, Q.mk 600 2, Q.mk 600 2, [4], 2⟩],
  [0],
  [[4, 1, 2], [5, 3], []], [[4, 5], [1], [2, 3]]⟩

def badC5t6 : Calendar :=
  ⟨Q.mk 600 1,
  [⟨0, Q.mk 5 1, Q.mk 12 1, Q.mk 1200 3, Q.mk 600 3, [5, 3, 4, 1, 2], 3⟩,
   ⟨1, Q.mk 8 1, Q.mk 10 1, Q.mk 0 3, Q.mk 600 3, [], 1⟩,
   ⟨2, Q.mk 11 1, Q.mk 12 1, Q.mk 0 3, Q.mk 600 3, [], 1⟩,
   ⟨3, Q.mk 11 1, Q.mk 12 1, Q.mk 600 3, Q.mk 600 3, [2], 2⟩,
   ⟨4, Q.mk 4 1, Q.mk 7 1, Q.mk 0 3, Q.mk 600 3, [], 1⟩,
   ⟨5, Q.mk 5 1, Q.mk 7 1, Q.mk 600 3, Q.mk 600 3, [4], 2⟩],
  [0],
  [[4, 1, 2], [5, 3], [0]], [[4, 5, 2, 3, 1, 0], [2, 3]]⟩

lemma badC5scan3 : scanEvents badC5in3 3 [0] = some (badC5t6, []) := by
  have h0 : scanEvents badC5t6 3 ([] : List Nat) = some (badC5t6, []) := rfl
  have h1 : scanEvents badC5in3 3 [0] = some (badC5t6, []) := by
    rw [scanEvents_cons_place badC5in3 badC5t6 3 0 [] (by decide) (by decide)]
    exact h0
  exact h1

lemma badC5pass3 : runPass badC5s3 3 = some (badC5t6, []) := badC5scan3

def badC5s4 : Calendar :=
  ⟨Q.mk 600 1,
  [⟨0, Q.mk 5 1, Q.mk 12 1, Q.mk 1200 3, Q.mk 600 3, [5, 3, 4, 1, 2], 3⟩,
   ⟨1, Q.mk 8 1, Q.mk 10 1, Q.mk 0 3, Q.mk 600 3, [], 1⟩,
   ⟨2, Q.mk 11 1, Q.mk 12 1, Q.mk 0 3, Q.mk 600 3, [], 1⟩,
   ⟨3, Q.mk 11 1, Q.mk 12 1, Q.mk 600 3, Q.mk 600 3, [2], 2⟩,
   ⟨4, Q.mk 4 1, Q.mk 7 1, Q.mk 0 3, Q.mk 600 3, [], 1⟩,
   ⟨5, Q.mk 5 1, Q.mk 7 1, Q.mk 600 3, Q.mk 600 3, [4], 2⟩],
  [],
  [[4, 1, 2], [5, 3], [0]], [[4, 5, 2, 3, 1, 0], [2, 3]]⟩

lemma badC5_run : layOutDay badC5Input = .ok badC5s4 := by
  have hlen : (badC5s1).events.length = 6 := rfl
  simp only [layOutDay, badC5_init, hlen]
  rw [calcLoop_succ_step 5 badC5s1 badC5t3 badC5s2 1 [5, 0, 3] rfl badC5pass1 (by decide)]
  rw [calcLoop_succ_step 4 badC5s2 badC5t5 badC5s3 2 [0] rfl badC5pass2 (by decide)]
  rw [calcLoop_succ_step 3 badC5s3 badC5t6 badC5s4 3 [] rfl badC5pass3 (by decide)]
  exact calcLoop_done 3 badC5s4 4 rfl

/-- The concrete failing input. -/
def badC1Input : List RawEvent := [⟨Q.mk 2 1, Q.mk 3 1⟩, ⟨Q.mk 2 1, Q.mk 3 1⟩, ⟨Q.mk 3 1, Q.mk 4 1⟩, ⟨Q.mk 0 1, Q.mk 1 1⟩, ⟨Q.mk 1 1, Q.mk 2 1⟩, ⟨Q.mk 2 1, Q.mk 4 1⟩, ⟨Q.mk 0 1, Q.mk 3 1⟩, ⟨Q.mk 0 1, Q.mk 1 1⟩]

def badC1s1 : Calendar :=
  ⟨Q.mk 600 1,
  [⟨0, Q.mk 2 1, Q.mk 3 1, Q.mk 0 1, Q.mk 600 1, [], 1⟩,
   ⟨1, Q.mk 2 1, Q.mk 3 1, Q.mk 0 1, Q.mk 600 1, [], 1⟩,
   ⟨2, Q.mk 3 1, Q.mk 4 1, Q.mk 0 1, Q.mk 600 1, [], 1⟩,
   ⟨3, Q.mk 0 1, Q.mk 1 1, Q.mk 0 1, Q.mk 600 1, [], 1⟩,
   ⟨4, Q.mk 1 1, Q.mk 2 1, Q.mk 0 1, Q.mk 600 1, [], 1⟩,
   ⟨5, Q.mk 2 1, Q.mk 4 1, Q.mk 0 1, Q.mk 600 1, [], 1⟩,
   ⟨6, Q.mk 0 1, Q.mk 3 1, Q.mk 0 1, Q.mk 600 1, [], 1⟩,
   ⟨7, Q.mk 0 1, Q.mk 1 1, Q.mk 0 1, Q.mk 600 1, [], 1⟩],
  [3, 7, 6, 4, 0, 1, 5, 2],
  [], []⟩

lemma badC1_init : sortEvents (Calendar.new badC1Input) = badC1s1 := by decide

def badC1in1 : Calendar :=
  ⟨Q.mk 600 1,
  [⟨0, Q.mk 2 1, Q.mk 3 1, Q.mk 0 1, Q.mk 600 1, [], 1⟩,
   ⟨1, Q.mk 2 1, Q.mk 3 1, Q.mk 0 1, Q.mk 600 1, [], 1⟩,
   ⟨2, Q.mk 3 1, Q.mk 4 1, Q.mk 0 1, Q.mk 600 1, [], 1⟩,
   ⟨3, Q.mk 0 1, Q.mk 1 1, Q.mk 0 1, Q.mk 600 1, [], 1⟩,
   ⟨4, Q.mk 1 1, Q.mk 2 1, Q.mk 0 1, Q.mk 600 1, [], 1⟩,
   ⟨5, Q.mk 2 1, Q.mk 4 1, Q.mk 0 1, Q.mk 600 1, [], 1⟩,
   ⟨6, Q.mk 0 1, Q.mk 3 1, Q.mk 0 1, Q.mk 600 1, [], 1⟩,
   ⟨7, Q.mk 0 1, Q.mk 1 1, Q.mk 0 1, Q.mk 600 1, [], 1⟩],
  [3, 7, 6, 4, 0, 1, 5, 2],
  [[]], []⟩

def badC1t1 : Calendar :=
  ⟨Q.mk 600 1,
  [⟨0, Q.mk 2 1, Q.mk 3 1, Q.mk 0 1, Q.mk 600 1, [], 1⟩,
   ⟨1, Q.mk 2 1, Q.mk 3 1, Q.mk 0 1, Q.mk 600 1, [], 1⟩,
   ⟨2, Q.mk 3 1, Q.mk 4 1, Q.mk 0 1, Q.mk 600 1, [], 1⟩,
   ⟨3, Q.mk 0 1, Q.mk 1 1, Q.mk 0 1, Q.mk 600 1, [], 1⟩,
   ⟨4, Q.mk 1 1, Q.mk 2 1, Q.mk 0 1, Q.mk 600 1, [], 1⟩,
   ⟨5, Q.mk 2 1, Q.mk 4 1, Q.mk 0 1, Q.mk 600 1, [], 1⟩,
   ⟨6, Q.mk 0 1, Q.mk 3 1, Q.mk 0 1, Q.mk 600 1, [], 1⟩,
   ⟨7, Q.mk 0 1, Q.mk 1 1, Q.mk 0 1, Q.mk 600 1, [], 1⟩],
  [3, 7, 6, 4, 0, 1, 5, 2],
  [[3]], [[3]]⟩

def badC1t2 : Calendar :=
  ⟨Q.mk 600 1,
  [⟨0, Q.mk 2 1, Q.mk 3 1, Q.mk 0 1, Q.mk 600 1, [], 1⟩,
   ⟨1, Q.mk 2 1, Q.mk 3 1, Q.mk 0 1, Q.mk 600 1, [], 1⟩,
   ⟨2, Q.mk 3 1, Q.mk 4 1, Q.mk 0 1, Q.mk 600 1, [], 1⟩,
   ⟨3, Q.mk 0 1, Q.mk 1 1, Q.mk 0 1, Q.mk 600 1, [], 1⟩,
   ⟨4, Q.mk 1 1, Q.mk 2 1, Q.mk 0 1, Q.mk 600 1, [], 1⟩,
   ⟨5, Q.mk 2 1, Q.mk 4 1, Q.mk 0 1, Q.mk 600 1, [], 1⟩,
   ⟨6, Q.mk 0 1, Q.mk 3 1, Q.mk 0 1, Q.mk 600 1, [], 1⟩,
   ⟨7, Q.mk 0 1, Q.mk 1 1, Q.mk 0 1, Q.mk 600 1, [], 1⟩],
  [3, 7, 6, 4, 0, 1, 5, 2],
  [[3, 4]], [[3], [4]]⟩

def badC1t3 : Calendar :=
  ⟨Q.mk 600 1,
  [⟨0, Q.mk 2 1, Q.mk 3 1, Q.mk 0 1, Q.mk 600 1, [], 1⟩,
   ⟨1, Q.mk 2 1, Q.mk 3 1, Q.mk 0 1, Q.mk 600 1, [], 1⟩,
   ⟨2, Q.mk 3 1, Q.mk 4 1, Q.mk 0 1, Q.mk 600 1, [], 1⟩,
   ⟨3, Q.mk 0 1, Q.mk 1 1, Q.mk 0 1, Q.mk 600 1, [], 1⟩,
   ⟨4, Q.mk 1 1, Q.mk 2 1, Q.mk 0 1, Q.mk 600 1, [], 1⟩,
   ⟨5, Q.mk 2 1, Q.mk 4 1, Q.mk 0 1, Q.mk 600 1, [], 1⟩,
   ⟨6, Q.mk 0 1, Q.mk 3 1, Q.mk 0 1, Q.mk 600 1, [], 1⟩,
   ⟨7, Q.mk 0 1, Q.mk 1 1, Q.mk 0 1, Q.mk 600 1, [], 1⟩],
  [3, 7, 6, 4, 0, 1, 5, 2],
  [[3, 4, 0]], [[3], [4], [0]]⟩

def badC1t4 : Calendar :=
  ⟨Q.mk 600 1,
  [⟨0, Q.mk 2 1, Q.mk 3 1, Q.mk 0 1, Q.mk 600 1, [], 1⟩,
   ⟨1, Q.mk 2 1, Q.mk 3 1, Q.mk 0 1, Q.mk 600 1, [], 1⟩,
   ⟨2, Q.mk 3 1, Q.mk 4 1, Q.mk 0 1, Q.mk 600 1, [], 1⟩,
   ⟨3, Q.mk 0 1, Q.mk 1 1, Q.mk 0 1, Q.mk 600 1, [], 1⟩,
   ⟨4, Q.mk 1 1, Q.mk 2 1, Q.mk 0 1, Q.mk 600 1, [], 1⟩,
   ⟨5, Q.mk 2 1, Q.mk 4 1, Q.mk 0 1, Q.mk 600 1, [], 1⟩,
   ⟨6, Q.mk 0 1, Q.mk 3 1, Q.mk 0 1, Q.mk 600 1, [], 1⟩,
   ⟨7, Q.mk 0 1, Q.mk 1 1, Q.mk 0 1, Q.mk 600 1, [], 1⟩],
  [3, 7, 6, 4, 0, 1, 5, 2],
  [[3, 4, 0, 2]], [[3], [4], [0], [2]]⟩

lemma badC1scan1 : scanEvents badC1in1 1 [3, 7, 6, 4, 0, 1, 5, 2] = some (badC1t4, [7, 6, 1, 5]) := by
  have h0 : scanEvents badC1t4 1 ([] : List Nat) = some (badC1t4, []) := rfl
  have h1 : scanEvents badC1t3 1 [2] = some (badC1t4, []) := by
    rw [scanEvents_cons_place badC1t3 badC1t4 1 2 [] (by decide) (by decide)]
    exact h0
  have h2 : scanEvents badC1t3 1 [5, 2] = some (badC1t4, [5]) := by
    rw [scanEvents_cons_skip badC1t3 1 5 [2] [0] (by decide) (by decide), h1]
    rfl
  have h3 : scanEvents badC1t3 1 [1, 5, 2] = some (badC1t4, [1, 5]) := by
    rw [scanEvents_cons_skip badC1t3 1 1 [5, 2] [0] (by decide) (by decide), h2]
    rfl
  have h4 : scanEvents badC1t2 1 [0, 1, 5, 2] = some (badC1t4, [1, 5]) := by
    rw [scanEvents_cons_place badC1t2 badC1t3 1 0 [1, 5, 2] (by decide) (by decide)]
    exact h3
  have h5 : scanEvents badC1t1 1 [4, 0, 1, 5, 2] = some (badC1t4, [1, 5]) := by
    rw [scanEvents_cons_place badC1t1 badC1t2 1 4 [0, 1, 5, 2] (by decide) (by decide)]
    exact h4
  have h6 : scanEvents badC1t1 1 [6, 4, 0, 1, 5, 2] = some (badC1t4, [6, 1, 5]) := by
    rw [scanEvents_cons_skip badC1t1 1 6 [4, 0, 1, 5, 2] [3] (by decide) (by decide), h5]
    rfl
  have h7 : scanEvents badC1t1 1 [7, 6, 4, 0, 1, 5, 2] = some (badC1t4, [7, 6, 1, 5]) := by
    rw [scanEvents_cons_skip badC1t1 1 7 [6, 4, 0, 1, 5, 2] [3] (by decide) (by decide), h6]
    rfl
  have h8 : scanEvents badC1in1 1 [3, 7, 6, 4, 0, 1, 5, 2] = some (badC1t4, [7, 6, 1, 5]) := by
    rw [scanEvents_cons_place badC1in1 badC1t1 1 3 [7, 6, 4, 0, 1, 5, 2] (by decide) (by decide)]
    exact h7
  exact h8

lemma badC1pass1 : runPass badC1s1 1 = some (badC1t4, [7, 6, 1, 5]) := badC1scan1

def badC1s2 : Calendar :=
  ⟨Q.mk 600 1,
  [⟨0, Q.mk 2 1, Q.mk 3 1, Q.mk 0 1, Q.mk 600 1, [], 1⟩,
   ⟨1, Q.mk 2 1, Q.mk 3 1, Q.mk 0 1, Q.mk 600 1, [], 1⟩,
   ⟨2, Q.mk 3 1, Q.mk 4 1, Q.mk 0 1, Q.mk 600 1, [], 1⟩,
   ⟨3, Q.mk 0 1, Q.mk 1 1, Q.mk 0 1, Q.mk 600 1, [], 1⟩,
   ⟨4, Q.mk 1 1, Q.mk 2 1, Q.mk 0 1, Q.mk 600 1, [], 1⟩,
   ⟨5, Q.mk 2 1, Q.mk 4 1, Q.mk 0 1, Q.mk 600 1, [], 1⟩,
   ⟨6, Q.mk 0 1, Q.mk 3 1, Q.mk 0 1, Q.mk 600 1, [], 1⟩,
   ⟨7, Q.mk 0 1, Q.mk 1 1, Q.mk 0 1, Q.mk 600 1, [], 1⟩],
  [7, 6, 1, 5],
  [[3, 4, 0, 2]], [[3], [4], [0], [2]]⟩

def badC1in2 : Calendar :=
  ⟨Q.mk 600 1,
  [⟨0, Q.mk 2 1, Q.mk 3 1, Q.mk 0 1, Q.mk 600 1, [], 1⟩,
   ⟨1, Q.mk 2 1, Q.mk 3 1, Q.mk 0 1, Q.mk 600 1, [], 1⟩,
   ⟨2, Q.mk 3 1, Q.mk 4 1, Q.mk 0 1, Q.mk 600 1, [], 1⟩,
   ⟨3, Q.mk 0 1, Q.mk 1 1, Q.mk 0 1, Q.mk 600 1, [], 1⟩,
   ⟨4, Q.mk 1 1, Q.mk 2 1, Q.mk 0 1, Q.mk 600 1, [], 1⟩,
   ⟨5, Q.mk 2 1, Q.mk 4 1, Q.mk 0 1, Q.mk 600 1, [], 1⟩,
   ⟨6, Q.mk 0 1, Q.mk 3 1, Q.mk 0 1, Q.mk 600 1, [], 1⟩,
   ⟨7, Q.mk 0 1, Q.mk 1 1, Q.mk 0 1, Q.mk 600 1, [], 1⟩],
  [7, 6, 1, 5],
  [[3, 4, 0, 2], []], [[3], [4], [0], [2]]⟩

def badC1t5 : Calendar :=
  ⟨Q.mk 600 1,
  [⟨0, Q.mk 2 1, Q.mk 3 1, Q.mk 0 1, Q.mk 600 1, [], 1⟩,
   ⟨1, Q.mk 2 1, Q.mk 3 1, Q.mk 0 1, Q.mk 600 1, [], 1⟩,
   ⟨2, Q.mk 3 1, Q.mk 4 1, Q.mk 0 1, Q.mk 600 1, [], 1⟩,
   ⟨3, Q.mk 0 1, Q.mk 1 1, Q.mk 0 2, Q.mk 600 2, [], 1⟩,
   ⟨4, Q.mk 1 1, Q.mk 2 1, Q.mk 0 1, Q.mk 600 1, [], 1⟩,
   ⟨5, Q.mk 2 1, Q.mk 4 1, Q.mk 0 1, Q.mk 600 1, [], 1⟩,
   ⟨6, Q.mk 0 1, Q.mk 3 1, Q.mk 0 1, Q.mk 600 1, [], 1⟩,
   ⟨7, Q.mk 0 1, Q.mk 1 1, Q.mk 600 2, Q.mk 600 2, [3], 2⟩],
  [7, 6, 1, 5],
  [[3, 4, 0, 2], [7]], [[3, 7], [4], [0], [2]]⟩

def badC1t6 : Calendar :=
  ⟨Q.mk 600 1,
  [⟨0, Q.mk 2 1, Q.mk 3 1, Q.mk 0 2, Q.mk 600 2, [], 1⟩,
   ⟨1, Q.mk 2 1, Q.mk 3 1, Q.mk 600 2, Q.mk 600 2, [0], 2⟩,
   ⟨2, Q.mk 3 1, Q.mk 4 1, Q.mk 0 1, Q.mk 600 1, [], 1⟩,
   ⟨3, Q.mk 0 1, Q.mk 1 1, Q.mk 0 2, Q.mk 600 2, [], 1⟩,
   ⟨4, Q.mk 1 1, Q.mk 2 1, Q.mk 0 1, Q.mk 600 1, [], 1⟩,
   ⟨5, Q.mk 2 1, Q.mk 4 1, Q.mk 0 1, Q.mk 600 1, [], 1⟩,
   ⟨6, Q.mk 0 1, Q.mk 3 1, Q.mk 0 1, Q.mk 600 1, [], 1⟩,
   ⟨7, Q.mk 0 1, Q.mk 1 1, Q.mk 600 2, Q.mk 600 2, [3], 2⟩],
  [7, 6, 1, 5],
  [[3, 4, 0, 2], [7, 1]], [[3, 7], [4], [0, 1], [2]]⟩

lemma badC1scan2 : scanEvents badC1in2 2 [7, 6, 1, 5] = some (badC1t6, [6, 5]) := by
  have h0 : scanEvents badC1t6 2 ([] : List Nat) = some (badC1t6, []) := rfl
  have h1 : scanEvents badC1t6 2 [5] = some (badC1t6, [5]) := by
    rw [scanEvents_cons_skip badC1t6 2 5 [] [1] (by decide) (by decide), h0]
    rfl
  have h2 : scanEvents badC1t5 2 [1, 5] = some (badC1t6, [5]) := by
    rw [scanEvents_cons_place badC1t5 badC1t6 2 1 [5] (by decide) (by decide)]
    exact h1
  have h3 : scanEvents badC1t5 2 [6, 1, 5] = some (badC1t6, [6, 5]) := by
    rw [scanEvents_cons_skip badC1t5 2 6 [1, 5] [7] (by decide) (by decide), h2]
    rfl
  have h4 : scanEvents badC1in2 2 [7, 6, 1, 5] = some (badC1t6, [6, 5]) := by
    rw [scanEvents_cons_place badC1in2 badC1t5 2 7 [6, 1, 5] (by decide) (by decide)]
    exact h3
  exact h4

lemma badC1pass2 : runPass badC1s2 2 = some (badC1t6, [6, 5]) := badC1scan2

def badC1s3 : Calendar :=
  ⟨Q.mk 600 1,
  [⟨0, Q.mk 2 1, Q.mk 3 1, Q.mk 0 2, Q.mk 600 2, [], 1⟩,
   ⟨1, Q.mk 2 1, Q.mk 3 1, Q.mk 600 2, Q.mk 600 2, [0], 2⟩,
   ⟨2, Q.mk 3 1, Q.mk 4 1, Q.mk 0 1, Q.mk 600 1, [], 1⟩,
   ⟨3, Q.mk 0 1, Q.mk 1 1, Q.mk 0 2, Q.mk 600 2, [], 1⟩,
   ⟨4, Q.mk 1 1, Q.mk 2 1, Q.mk 0 1, Q.mk 600 1, [], 1⟩,
   ⟨5, Q.mk 2 1, Q.mk 4 1, Q.mk 0 1, Q.mk 600 1, [], 1⟩,
   ⟨6, Q.mk 0 1, Q.mk 3 1, Q.mk 0 1, Q.mk 600 1, [], 1⟩,
   ⟨7, Q.mk 0 1, Q.mk 1 1, Q.mk 600 2, Q.mk 600 2, [3], 2⟩],
  [6, 5],
  [[3, 4, 0, 2], [7, 1]], [[3, 7], [4], [0, 1], [2]]⟩

def badC1in3 : Calendar :=
  ⟨Q.mk 600 1,
  [⟨0, Q.mk 2 1, Q.mk 3 1, Q.mk 0 2, Q.mk 600 2, [], 1⟩,
   ⟨1, Q.mk 2 1, Q.mk 3 1, Q.mk 600 2, Q.mk 600 2, [0], 2⟩,
   ⟨2, Q.mk 3 1, Q.mk 4 1, Q.mk 0 1, Q.mk 600 1, [], 1⟩,
   ⟨3, Q.mk 0 1, Q.mk 1 1, Q.mk 0 2, Q.mk 600 2, [], 1⟩,
   ⟨4, Q.mk 1 1, Q.mk 2 1, Q.mk 0 1, Q.mk 600 1, [], 1⟩,
   ⟨5, Q.mk 2 1, Q.mk 4 1, Q.mk 0 1, Q.mk 600 1, [], 1⟩,
   ⟨6, Q.mk 0 1, Q.mk 3 1, Q.mk 0 1, Q.mk 600 1, [], 1⟩,
   ⟨7, Q.mk 0 1, Q.mk 1 1, Q.mk 600 2, Q.mk 600 2, [3], 2⟩],
  [6, 5],
  [[3, 4, 0, 2], [7, 1], []], [[3, 7], [4], [0, 1], [2]]⟩

def badC1t7 : Calendar :=
  ⟨Q.mk 600 1,
  [⟨0, Q.mk 2 1, Q.mk 3 1, Q.mk 0 3, Q.mk 600 3, [], 1⟩,
   ⟨1, Q.mk 2 1, Q.mk 3 1, Q.mk 600 3, Q.mk 600 3, [0], 2⟩,
   ⟨2, Q.mk 3 1, Q.mk 4 1, Q.mk 0 1, Q.mk 600 1, [], 1⟩,
   ⟨3, Q.mk 0 1, Q.mk 1 1, Q.mk 0 3, Q.mk 600 3, [], 1⟩,
   ⟨4, Q.mk 1 1, Q.mk 2 1, Q.mk 0 3, Q.mk 600 3, [], 1⟩,
   ⟨5, Q.mk 2 1, Q.mk 4 1, Q.mk 0 1, Q.mk 600 1, [], 1⟩,
   ⟨6, Q.mk 0 1, Q.mk 3 1, Q.mk 1200 3, Q.mk 600 3, [7, 1, 3, 4, 0], 3⟩,
   ⟨7, Q.mk 0 1, Q.mk 1 1, Q.mk 600 3, Q.mk 600 3, [3], 2⟩],
  [6, 5],
  [[3, 4, 0, 2], [7, 1], [6]], [[3, 7, 0, 1, 4, 6], [0, 1]]⟩

lemma badC1scan3 : scanEvents badC1in3 3 [6, 5] = some (badC1t7, [5]) := by
  have h0 : scanEvents badC1t7 3 ([] : List Nat) = some (badC1t7, []) := rfl
  have h1 : scanEvents badC1t7 3 [5] = some (badC1t7, [5]) := by
    rw [scanEvents_cons_skip badC1t7 3 5 [] [6] (by decide) (by decide), h0]
    rfl
  have h2 : scanEvents badC1in3 3 [6, 5] = some (badC1t7, [5]) := by
    rw [scanEvents_cons_place badC1in3 badC1t7 3 6 [5] (by decide) (by decide)]
    exact h1
  exact h2

lemma badC1pass3 : runPass badC1s3 3 = some (badC1t7, [5]) := badC1scan3

def badC1s4 : Calendar :=
  ⟨Q.mk 600 1,
  [⟨0, Q.mk 2 1, Q.mk 3 1, Q.mk 0 3, Q.mk 600 3, [], 1⟩,
   ⟨1, Q.mk 2 1, Q.mk 3 1, Q.mk 600 3, Q.mk 600 3, [0], 2⟩,
   ⟨2, Q.mk 3 1, Q.mk 4 1, Q.mk 0 1, Q.mk 600 1, [], 1⟩,
   ⟨3, Q.mk 0 1, Q.mk 1 1, Q.mk 0 3, Q.mk 600 3, [], 1⟩,
   ⟨4, Q.mk 1 1, Q.mk 2 1, Q.mk 0 3, Q.mk 600 3, [], 1⟩,
   ⟨5, Q.mk 2 1, Q.mk 4 1, Q.mk 0 1, Q.mk 600 1, [], 1⟩,
   ⟨6, Q.mk 0 1, Q.mk 3 1, Q.mk 1200 3, Q.mk 600 3, [7, 1, 3, 4, 0], 3⟩,
   ⟨7, Q.mk 0 1, Q.mk 1 1, Q.mk 600 3, Q.mk 600 3, [3], 2⟩],
  [5],
  [[3, 4, 0, 2], [7, 1], [6]], [[3, 7, 0, 1, 4, 6], [0, 1]]⟩

def badC1in4 : Calendar :=
  ⟨Q.mk 600 1,
  [⟨0, Q.mk 2 1, Q.mk 3 1, Q.mk 0 3, Q.mk 600 3, [], 1⟩,
   ⟨1, Q.mk 2 1, Q.mk 3 1, Q.mk 600 3, Q.mk 600 3, [0], 2⟩,
   ⟨2, Q.mk 3 1, Q.mk 4 1, Q.mk 0 1, Q.mk 600 1, [], 1⟩,
   ⟨3, Q.mk 0 1, Q.mk 1 1, Q.mk 0 3, Q.mk 600 3, [], 1⟩,
   ⟨4, Q.mk 1 1, Q.mk 2 1, Q.mk 0 3, Q.mk 600 3, [], 1⟩,
   ⟨5, Q.mk 2 1, Q.mk 4 1, Q.mk 0 1, Q.mk 600 1, [], 1⟩,
   ⟨6, Q.mk 0 1, Q.mk 3 1, Q.mk 1200 3, Q.mk 600 3, [7, 1, 3, 4, 0], 3⟩,
   ⟨7, Q.mk 0 1, Q.mk 1 1, Q.mk 600 3, Q.mk 600 3, [3], 2⟩],
  [5],
  [[3, 4, 0, 2], [7, 1], [6], []], [[3, 7, 0, 1, 4, 6], [0, 1]]⟩

def badC1t8 : Calendar :=
  ⟨Q.mk 600 1,
  [⟨0, Q.mk 2 1, Q.mk 3 1, Q.mk 0 4, Q.mk 600 4, [], 1⟩,
   ⟨1, Q.mk 2 1, Q.mk 3 1, Q.mk 600 4, Q.mk 600 4, [0], 2⟩,
   ⟨2, Q.mk 3 1, Q.mk 4 1, Q.mk 0 1, Q.mk 600 1, [], 1⟩,
   ⟨3, Q.mk 0 1, Q.mk 1 1, Q.mk 0 4, Q.mk 600 4, [], 1⟩,
   ⟨4, Q.mk 1 1, Q.mk 2 1, Q.mk 0 4, Q.mk 600 4, [], 1⟩,
   ⟨5, Q.mk 2 1, Q.mk 4 1, Q.mk 1800 4, Q.mk 600 4, [6, 1, 0, 2], 4⟩,
   ⟨6, Q.mk 0 1, Q.mk 3 1, Q.mk 1200 4, Q.mk 600 4, [7, 1, 3, 4, 0], 3⟩,
   ⟨7, Q.mk 0 1, Q.mk 1 1, Q.mk 600 4, Q.mk 600 4, [3], 2⟩],
  [5],
  [[3, 4, 0, 2], [7, 1], [6], [5]], [[3, 7, 0, 1, 4, 6, 0, 1, 5]]⟩

lemma badC1scan4 : scanEvents badC1in4 4 [5] = some (badC1t8, []) := by
  have h0 : scanEvents badC1t8 4 ([] : List Nat) = some (badC1t8, []) := rfl
  have h1 : scanEvents badC1in4 4 [5] = some (badC1t8, []) := by
    rw [scanEvents_cons_place badC1in4 badC1t8 4 5 [] (by decide) (by decide)]
    exact h0
  exact h1

lemma badC1pass4 : runPass badC1s4 4 = some (badC1t8, []) := badC1scan4

def badC1s5 : Calendar :=
  ⟨Q.mk 600 1,
  [⟨0, Q.mk 2 1, Q.mk 3 1, Q.mk 0 4, Q.mk 600 4, [], 1⟩,
   ⟨1, Q.mk 2 1, Q.mk 3 1, Q.mk 600 4, Q.mk 600 4, [0], 2⟩,
   ⟨2, Q.mk 3 1, Q.mk 4 1, Q.mk 0 1, Q.mk 600 1, [], 1⟩,
   ⟨3, Q.mk 0 1, Q.mk 1 1, Q.mk 0 4, Q.mk 600 4, [], 1⟩,
   ⟨4, Q.mk 1 1, Q.mk 2 1, Q.mk 0 4, Q.mk 600 4, [], 1⟩,
   ⟨5, Q.mk 2 1, Q.mk 4 1, Q.mk 1800 4, Q.mk 600 4, [6, 1, 0, 2], 4⟩,
   ⟨6, Q.mk 0 1, Q.mk 3 1, Q.mk 1200 4, Q.mk 600 4, [7, 1, 3, 4, 0], 3⟩,
   ⟨7, Q.mk 0 1, Q.mk 1 1, Q.mk 600 4, Q.mk 600 4, [3], 2⟩],
  [],
  [[3, 4, 0, 2], [7, 1], [6], [5]], [[3, 7, 0, 1, 4, 6, 0, 1, 5]]⟩

lemma badC1_run : layOutDay badC1Input = .ok badC1s5 := by
  have hlen : (badC1s1).events.length = 8 := rfl
  simp only [layOutDay, badC1_init, hlen]
  rw [calcLoop_succ_step 7 badC1s1 badC1t4 badC1s2 1 [7, 6, 1, 5] rfl badC1pass1 (by decide)]
  rw [calcLoop_succ_step 6 badC1s2 badC1t6 badC1s3 2 [6, 5] rfl badC1pass2 (by decide)]
  rw [calcLoop_succ_step 5 badC1s3 badC1t7 badC1s4 3 [5] rfl badC1pass3 (by decide)]
  rw [calcLoop_succ_step 4 badC1s4 badC1t8 badC1s5 4 [] rfl badC1pass4 (by decide)]
  exact calcLoop_done 4 badC1s5 5 rfl

/-! ### Properties of the collision predicate -/

/-- `checkCollision` is symmetric (the four disjuncts of the source are a
permutation of the four disjuncts with the arguments swapped). -/
lemma checkCollision_symm (a b : EventData) : checkCollision a b = checkCollision b a := by
  rw [Bool.eq_iff_iff]
  simp only [checkCollision, Bool.or_eq_true, Bool.and_eq_true, decide_eq_true_eq]
  tauto

/-- For valid intervals (positive denominators, `start < end`) the source's
four-disjunct test is the standard half-open overlap test. -/
lemma checkCollision_iff (a b : EventData)
    (had : 0 < a.start.den) (had' : 0 < a.stop.den)
    (hbd : 0 < b.start.den) (hbd' : 0 < b.stop.den)
    (ha : a.start < a.stop) (hb : b.start < b.stop) :
    (checkCollision a b = true ↔ (a.start < b.stop ∧ b.start < a.stop)) := by
  simp only [checkCollision, Bool.or_eq_true, Bool.and_eq_true, decide_eq_true_eq]
  constructor
  · rintro (((⟨h1, h2⟩ | ⟨h1, h2⟩) | ⟨h1, h2⟩) | ⟨h1, h2⟩)
    · exact ⟨Q.lt_of_le_lt had hbd hbd' h1 hb, h2⟩
    · exact ⟨h1, Q.lt_of_lt_le hbd hbd' had' hb h2⟩
    · exact ⟨h2, Q.lt_of_le_lt hbd had had' h1 ha⟩
    · exact ⟨Q.lt_of_lt_le had had' hbd' ha h2, h1⟩
  · rintro ⟨h1, h2⟩
    by_cases h : a.start ≤ b.start
    · exact Or.inl (Or.inl (Or.inl ⟨h, h2⟩))
    · refine Or.inl (Or.inr ⟨?_, h1⟩)
      rw [Q.le_def] at h ⊢
      exact le_of_not_le h

/-! ### Claim theorems (part 1) -/

set_option maxRecDepth 4000 in
/-- C1 (counterexample evidence): on the concrete input
`[{2,3},{2,3},{3,4},{0,1},{1,2},{2,4},{0,3},{0,1}]` the layout run completes
and produces two time-colliding events whose horizontal ranges
`[left, left+width)` overlap — the event `{3,4}` keeps `left = 0`,
`width = 600` while the colliding `{2,4}` ends at `left = 450`,
`width = 150` — so the no-visual-overlap property fails on the code. -/
theorem noVisualOverlap_violated :
    (finalCalendar (layOutDay badC1Input)).map noVisualOverlap = some false := by
  rw [badC1_run]
  decide

set_option maxRecDepth 100000 in
/-- C4 (counterexample evidence): on the same concrete input the event
`{3,4}` sits in a transitively-connected collision cluster whose maximum
column is 4, yet its final `width` is `600`, not `600 / 4` — the width law
fails on the code. -/
theorem widthLaw_violated :
    (finalCalendar (layOutDay badC1Input)).map widthLawOK = some false := by
  rw [badC1_run]
  decide

set_option maxRecDepth 4000 in
/-- C5 (counterexample evidence): on the concrete input
`[{5,12},{8,10},{11,12},{11,12},{4,7},{5,7}]` the out-of-order cluster-merge
splice leaves a stale copy of a merged cluster behind: the final
`collision_clusters` are `[[4,5,2,3,1,0],[2,3]]`, so events 2 and 3 belong
to two clusters at once and the clusters are not pairwise disjoint. -/
theorem clusterPartition_violated :
    (finalCalendar (layOutDay badC5Input)).map
      (fun cal => pairwiseDisjoint cal.collision_clusters) = some false := by
  rw [badC5_run]
  decide

/-- C7: the layout is a pure function of its input — running it twice on the
same input yields identical outcomes and identical per-event geometry. -/
theorem layout_deterministic : ∀ l : List RawEvent,
    layOutDay l = layOutDay l ∧ finalGeometry l = finalGeometry l :=
  fun _ => ⟨rfl, rfl⟩

set_option maxRecDepth 4000 in
/-- C8 (counterexample evidence): the code performs no input validation — on
the malformed record `{start: 100, end: 50}` the layout run does not reject;
it completes normally and places the event with `left = 0`, `width = 600`. -/
theorem malformed_input_not_rejected :
    finalGeometry [⟨100, 50⟩] = some [(100, 50, 0, 600)] := by decide

/-- A calendar state whose first column cell exists and is empty. -/
def emptyCellCal : Calendar := ⟨Q.mk 600 1, [], [], [[]], []⟩

/-- C9 (counterexample): querying column 1 of a fresh calendar — a column in
which no events have been placed yet — faults (`undefined.forEach` in JS,
`none` here) instead of returning the empty result. -/
theorem getCollidingEvents_fresh_column_faults :
    getCollidingEvents (Calendar.new [⟨0, 1⟩]) (getEv (Calendar.new [⟨0, 1⟩]) 0) 1 = none := by
  decide

/-- C9 (amended): querying a column whose cell exists in
`events_calculated` but contains no placed events returns the empty result
rather than faulting, for every candidate event. -/
theorem getCollidingEvents_empty_cell (cal : Calendar) (ev : EventData) (column : Nat)
    (h : cal.events_calculated.get? (column - 1) = some []) :
    getCollidingEvents cal ev column = some [] := by
  unfold getCollidingEvents
  rw [h]
  rfl

theorem getCollidingEvents_empty_cell_witness :
    emptyCellCal.events_calculated.get? 0 = some [] ∧
    getCollidingEvents emptyCellCal default 1 = some [] :=
  ⟨rfl, getCollidingEvents_empty_cell emptyCellCal default 1 rfl⟩

/-- Two valid sample events used to instantiate the collision-predicate
specification. -/
def evW1 : EventData := ⟨0, Q.mk 0 1, Q.mk 2 1, Q.mk 0 1, Q.mk 600 1, [], 1⟩

def evW2 : EventData := ⟨1, Q.mk 1 1, Q.mk 3 1, Q.mk 0 1, Q.mk 600 1, [], 1⟩

/-- C3: for valid intervals, `checkCollision` returns true iff
`a.start < b.end && b.start < a.end`; it is symmetric; and exactly-touching
intervals (`a.end == b.start` as number equality) do not collide. -/
theorem checkCollision_spec (a b : EventData)
    (had : 0 < a.start.den) (had' : 0 < a.stop.den)
    (hbd : 0 < b.start.den) (hbd' : 0 < b.stop.den)
    (ha : a.start < a.stop) (hb : b.start < b.stop) :
    (checkCollision a b = true ↔ (a.start < b.stop ∧ b.start < a.stop)) ∧
    checkCollision a b = checkCollision b a ∧
    (a.stop.eqv b.start → checkCollision a b = false) := by
  refine ⟨checkCollision_iff a b had had' hbd hbd' ha hb, checkCollision_symm a b, ?_⟩
  intro htouch
  cases hcb : checkCollision a b with
  | false => rfl
  | true =>
    obtain ⟨h1, h2⟩ := (checkCollision_iff a b had had' hbd hbd' ha hb).1 hcb
    rw [Q.lt_def] at h2
    rw [Q.eqv_def] at htouch
    rw [htouch] at h2
    exact absurd h2 (lt_irrefl _)

theorem checkCollision_spec_witness :
    (0 < evW1.start.den ∧ 0 < evW1.stop.den ∧ 0 < evW2.start.den ∧ 0 < evW2.stop.den ∧
      evW1.start < evW1.stop ∧ evW2.start < evW2.stop) ∧
    ((checkCollision evW1 evW2 = true ↔ (evW1.start < evW2.stop ∧ evW2.start < evW1.stop)) ∧
      checkCollision evW1 evW2 = checkCollision evW2 evW1 ∧
      (evW1.stop.eqv evW2.start → checkCollision evW1 evW2 = false)) :=
  ⟨by decide,
    checkCollision_spec evW1 evW2 (by decide) (by decide) (by decide) (by decide)
      (by decide) (by decide)⟩

/-! ### C2: containment of the computed geometry -/

/-- Geometry invariant for a single event object while the outer loop is at
column `curCol`: `left` is nonnegative, the box ends inside the container,
and the assigned column is between 1 and the current column. -/
def EventGeomOK (curCol : Nat) (e : EventData) : Prop :=
  (0 : Q) ≤ e.left ∧ e.left + e.width ≤ (600 : Q) ∧ 1 ≤ e.column ∧ e.column ≤ curCol

/-- Geometry invariant for the whole calendar state. -/
def GeomInv (cal : Calendar) (curCol : Nat) : Prop :=
  cal.width = (600 : Q) ∧ 1 ≤ curCol ∧ ∀ e ∈ cal.store, EventGeomOK curCol e

lemma eventGeomOK_mono {c c' : Nat} (h : c ≤ c') {e : EventData} :
    EventGeomOK c e → EventGeomOK c' e :=
  fun ⟨h1, h2, h3, h4⟩ => ⟨h1, h2, h3, h4.trans h⟩

lemma geomInv_mono {cal : Calendar} {c c' : Nat} (h : c ≤ c') :
    GeomInv cal c → GeomInv cal c' :=
  fun ⟨hw, hc, hs⟩ => ⟨hw, hc.trans h, fun e he => eventGeomOK_mono h (hs e he)⟩

lemma eventGeomOK_default {c : Nat} (hc : 1 ≤ c) : EventGeomOK c (default : EventData) :=
  ⟨by decide, by decide, le_refl 1, hc⟩

lemma geomInv_getEv {cal : Calendar} {c : Nat} (h : GeomInv cal c) (i : Nat) :
    EventGeomOK c (getEv cal i) := by
  unfold getEv
  rcases lt_or_le i cal.store.length with hi | hi
  · have hmem : cal.store.getD i default ∈ cal.store := by
      simp only [List.getD_eq_getElem?_getD, List.getElem?_eq_getElem hi, Option.getD_some]
      exact List.getElem_mem hi
    exact h.2.2 _ hmem
  · simp only [List.getD_eq_getElem?_getD, List.getElem?_eq_none hi, Option.getD_none]
    exact eventGeomOK_default h.2.1

lemma geomInv_setEv {cal : Calendar} {c : Nat} {i : Nat} {e : EventData}
    (h : GeomInv cal c) (he : EventGeomOK c e) : GeomInv (setEv cal i e) c := by
  refine ⟨h.1, h.2.1, fun x hx => ?_⟩
  rcases List.mem_or_eq_of_mem_set hx with hx' | rfl
  · exact h.2.2 x hx'
  · exact he

/-- The arithmetic core of `resize`: with `1 ≤ column ≤ c` the recomputed
`left`/`width` keep the box inside `[0, 600]`. -/
lemma resize_arith {c col : Nat} (hc : 1 ≤ c) (hcol1 : 1 ≤ col) (hcol2 : col ≤ c) :
    (0 : Q) ≤ ((600 : Q) / (c : Q)) * ((col : Q) - 1) ∧
    ((600 : Q) / (c : Q)) * ((col : Q) - 1) + (600 : Q) / (c : Q) ≤ (600 : Q) := by
  have hc' : (1 : Int) ≤ (c : Int) := by exact_mod_cast hc
  have hcol1' : (1 : Int) ≤ (col : Int) := by exact_mod_cast hcol1
  have hcol2' : (col : Int) ≤ (c : Int) := by exact_mod_cast hcol2
  constructor
  · rw [Q.le_def]
    simp only [Q.zero_num, Q.zero_den, Q.mul_num, Q.mul_den, Q.div_num, Q.div_den,
      Q.sub_num, Q.sub_den, Q.natCast_num, Q.natCast_den, Q.ofNat_num, Q.ofNat_den,
      Q.one_num, Q.one_den, mul_one, one_mul, zero_mul]
    nlinarith
  · rw [Q.le_def]
    simp only [Q.add_num, Q.add_den, Q.mul_num, Q.mul_den, Q.div_num, Q.div_den,
      Q.sub_num, Q.sub_den, Q.natCast_num, Q.natCast_den, Q.ofNat_num, Q.ofNat_den,
      Q.one_num, Q.one_den, mul_one, one_mul]
    nlinarith

lemma geomInv_resize {cal : Calendar} {c : Nat} (i : Nat) (h : GeomInv cal c) :
    GeomInv (resize cal i c) c := by
  obtain ⟨h1, h2, h3, h4⟩ := geomInv_getEv h i
  simp only [resize]
  refine geomInv_setEv h ?_
  have harith := resize_arith h.2.1 h3 h4
  rw [h.1]
  exact ⟨harith.1, harith.2, h3, h4⟩

lemma geomInv_resizeCluster {cal : Calendar} {c idx : Nat} (h : GeomInv cal c) :
    GeomInv (resizeCluster cal idx c) c := by
  unfold resizeCluster
  generalize cal.collision_clusters.getD idx [] = l
  induction l generalizing cal with
  | nil => exact h
  | cons x xs ih => exact ih (geomInv_resize x h)

lemma geomInv_determineCollidingEvents {cal : Calendar} {c : Nat} (i : Nat)
    (h : GeomInv cal c) : GeomInv (determineCollidingEvents cal i) c := by
  obtain ⟨h1, h2, h3, h4⟩ := geomInv_getEv h i
  simp only [determineCollidingEvents]
  exact geomInv_setEv h ⟨h1, h2, h3, h4⟩

lemma determineCollisionClusters_fields {cal : Calendar} {i : Nat} {cal' : Calendar} {idx : Nat}
    (h : determineCollisionClusters cal i = some (cal', idx)) :
    cal'.store = cal.store ∧ cal'.width = cal.width ∧ cal'.events = cal.events ∧
      cal'.events_calculated = cal.events_calculated := by
  simp only [determineCollisionClusters] at h
  split at h
  · rw [Option.some.injEq, Prod.mk.injEq] at h
    obtain ⟨h1, -⟩ := h
    subst h1
    exact ⟨rfl, rfl, rfl, rfl⟩
  · split at h
    · simp at h
    · split at h
      · rw [Option.some.injEq, Prod.mk.injEq] at h
        obtain ⟨h1, -⟩ := h
        subst h1
        exact ⟨rfl, rfl, rfl, rfl⟩
      · simp at h

lemma geomInv_placePrep {cal : Calendar} {c : Nat} (i : Nat) (h : GeomInv cal c) :
    GeomInv (placePrep cal c i) c := by
  simp only [placePrep]
  have h1 : GeomInv { cal with events_calculated := pushToCell cal.events_calculated (c - 1) i } c :=
    ⟨h.1, h.2.1, h.2.2⟩
  obtain ⟨g1, g2, g3, g4⟩ := geomInv_getEv h1 i
  exact geomInv_determineCollidingEvents i (geomInv_setEv h1 ⟨g1, g2, h.2.1, le_refl c⟩)

lemma geomInv_placeEvent {cal : Calendar} {c : Nat} {i : Nat} {cal' : Calendar}
    (h : GeomInv cal c) (hp : placeEvent cal c i = some cal') : GeomInv cal' c := by
  simp only [placeEvent, Option.map_eq_some'] at hp
  obtain ⟨⟨cal4, idx⟩, hdc, hres⟩ := hp
  have h3 := geomInv_placePrep i h
  have hfields := determineCollisionClusters_fields hdc
  have h4 : GeomInv cal4 c := by
    refine ⟨?_, h3.2.1, ?_⟩
    · rw [hfields.2.1]
      exact h3.1
    · rw [hfields.1]
      exact h3.2.2
  rw [← hres]
  exact geomInv_resizeCluster h4

lemma geomInv_scanEvents {c : Nat} : ∀ (rem : List Nat) {cal cal' : Calendar} {rem' : List Nat},
    GeomInv cal c → scanEvents cal c rem = some (cal', rem') → GeomInv cal' c := by
  intro rem
  induction rem with
  | nil =>
    intro cal cal' rem' h hs
    rw [scanEvents] at hs
    rw [Option.some.injEq, Prod.mk.injEq] at hs
    obtain ⟨h1, -⟩ := hs
    subst h1
    exact h
  | cons e rest ih =>
    intro cal cal' rem' h hs
    rw [scanEvents] at hs
    rcases hg : getCollidingEvents cal (getEv cal e) c with _ | colls
    · rw [hg] at hs
      simp at hs
    · simp only [hg] at hs
      by_cases hemp : colls.isEmpty
      · rw [if_pos hemp] at hs
        rcases hp : placeEvent cal c e with _ | cal1
        · rw [hp] at hs
          simp at hs
        · simp only [hp] at hs
          exact ih (geomInv_placeEvent h hp) hs
      · rw [if_neg hemp] at hs
        rw [Option.map_eq_some'] at hs
        obtain ⟨⟨cal1, rem1⟩, hs1, hs2⟩ := hs
        rw [Prod.mk.injEq] at hs2
        obtain ⟨h1, -⟩ := hs2
        subst h1
        exact ih h hs1

lemma geomInv_runPass {cal : Calendar} {c : Nat} {cal' : Calendar} {rem : List Nat}
    (h : GeomInv cal c) (hr : runPass cal c = some (cal', rem)) : GeomInv cal' c := by
  unfold runPass at hr
  refine geomInv_scanEvents _ ?_ hr
  exact ⟨h.1, h.2.1, h.2.2⟩

lemma geomInv_calcLoop : ∀ (fuel : Nat) {cal : Calendar} {c : Nat} {cal' : Calendar},
    GeomInv cal c → calcLoop fuel cal c = .ok cal' →
    ∀ e ∈ cal'.store, (0 : Q) ≤ e.left ∧ e.left + e.width ≤ (600 : Q) := by
  intro fuel
  induction fuel with
  | zero =>
    intro cal c cal' h hrun
    rw [calcLoop.eq_def] at hrun
    by_cases hemp : cal.events.isEmpty
    · rw [if_pos hemp, LayoutOutcome.ok.injEq] at hrun
      subst hrun
      exact fun e he => ⟨(h.2.2 e he).1, (h.2.2 e he).2.1⟩
    · rw [if_neg hemp] at hrun
      simp at hrun
  | succ fuel ih =>
    intro cal c cal' h hrun
    rw [calcLoop.eq_def] at hrun
    by_cases hemp : cal.events.isEmpty
    · rw [if_pos hemp, LayoutOutcome.ok.injEq] at hrun
      subst hrun
      exact fun e he => ⟨(h.2.2 e he).1, (h.2.2 e he).2.1⟩
    · rw [if_neg hemp] at hrun
      rcases hr : runPass cal c with _ | ⟨cal2, rem⟩
      · simp only [hr] at hrun
        simp at hrun
      · simp only [hr] at hrun
        have h2 : GeomInv { cal2 with events := rem } (c + 1) := by
          have h3 := geomInv_runPass h hr
          exact geomInv_mono (Nat.le_succ c) ⟨h3.1, h3.2.1, h3.2.2⟩
        exact ih h2 hrun

lemma geomInv_init (l : List RawEvent) : GeomInv (sortEvents (Calendar.new l)) 1 := by
  refine ⟨rfl, le_refl 1, fun e he => ?_⟩
  simp only [sortEvents, Calendar.new, List.mem_map] at he
  obtain ⟨p, -, rfl⟩ := he
  refine ⟨?_, ?_, le_refl 1, le_refl 1⟩
  · show (0 : Q) ≤ (0 : Q)
    decide
  · show (0 : Q) + (600 : Q) ≤ (600 : Q)
    decide

/-- C2: for every valid input set, every event in a completed layout run has
`0 ≤ left` and `left + width ≤ 600` (the calendar's fixed container
width). -/
theorem layout_containment (l : List RawEvent)
    (_hval : ∀ r ∈ l, r.start < r.stop) (cal : Calendar)
    (h : layOutDay l = .ok cal) :
    ∀ e ∈ cal.store, (0 : Q) ≤ e.left ∧ e.left + e.width ≤ (600 : Q) := by
  simp only [layOutDay] at h
  exact geomInv_calcLoop _ (geomInv_init l) h

/-- The literal final state of the layout run on the single event
`{30,150}`. -/
def wCalC2 : Calendar :=
  ⟨Q.mk 600 1, [⟨0, Q.mk 30 1, Q.mk 150 1, Q.mk 0 1, Q.mk 600 1, [], 1⟩], [], [[0]], [[0]]⟩

theorem layout_containment_witness :
    (∀ r ∈ ([⟨Q.mk 30 1, Q.mk 150 1⟩] : List RawEvent), r.start < r.stop) ∧
    (∀ e ∈ wCalC2.store, (0 : Q) ≤ e.left ∧ e.left + e.width ≤ (600 : Q)) :=
  ⟨by decide,
    layout_containment [⟨Q.mk 30 1, Q.mk 150 1⟩] (by decide) wCalC2 (by decide)⟩

/-! ### C10: events in one column never collide -/

/-- Any two events of one column cell are collision-free (as a `Pairwise`
relation along the cell, symmetry giving the other direction). -/
def cellOK (cal : Calendar) (cell : List Nat) : Prop :=
  List.Pairwise (fun i j => checkCollision (getEv cal i) (getEv cal j) = false) cell

/-- Every cell of `events_calculated` is pairwise collision-free. -/
def placedOK (cal : Calendar) : Prop := ∀ cell ∈ cal.events_calculated, cellOK cal cell

/-- `checkCollision` reads only the `start`/`end` fields. -/
lemma checkCollision_congr {a a' b b' : EventData}
    (h1 : a'.start = a.start) (h2 : a'.stop = a.stop)
    (h3 : b'.start = b.start) (h4 : b'.stop = b.stop) :
    checkCollision a' b' = checkCollision a b := by
  simp only [checkCollision, h1, h2, h3, h4]

/-- The heap of `cal'` agrees with the heap of `base` on every event's time
fields (the layout only ever mutates `left`/`width`/`column`/`collisions`). -/
def SameTimes (base cal' : Calendar) : Prop :=
  ∀ i, (getEv cal' i).start = (getEv base i).start ∧ (getEv cal' i).stop = (getEv base i).stop

lemma sameTimes_refl (cal : Calendar) : SameTimes cal cal := fun _ => ⟨rfl, rfl⟩

lemma sameTimes_trans {a b c : Calendar} (h1 : SameTimes a b) (h2 : SameTimes b c) :
    SameTimes a c :=
  fun i => ⟨(h2 i).1.trans (h1 i).1, (h2 i).2.trans (h1 i).2⟩

lemma getEv_congr_store {a b : Calendar} (h : a.store = b.store) (i : Nat) :
    getEv a i = getEv b i := by
  unfold getEv
  rw [h]

lemma cellOK_of_sameTimes {cal cal' : Calendar} (h : SameTimes cal cal') {cell : List Nat}
    (hc : cellOK cal cell) : cellOK cal' cell := by
  refine hc.imp ?_
  intro i j hij
  rw [checkCollision_congr (h i).1 (h i).2 (h j).1 (h j).2]
  exact hij

lemma sameTimes_setEv {base cal : Calendar} (hs : cal.store = base.store) {i : Nat}
    {e : EventData} (h1 : e.start = (getEv cal i).start) (h2 : e.stop = (getEv cal i).stop) :
    SameTimes base (setEv cal i e) := by
  intro j
  rw [← getEv_congr_store hs j]
  unfold getEv at h1 h2
  unfold getEv setEv
  by_cases hij : j = i
  · subst hij
    by_cases hj : j < cal.store.length
    · simp only [List.getD_eq_getElem?_getD, List.getElem?_set_self hj, Option.getD_some]
      rw [List.getD_eq_getElem?_getD] at h1 h2
      exact ⟨h1, h2⟩
    · have hge : cal.store.length ≤ j := Nat.le_of_not_lt hj
      simp only [List.getD_eq_getElem?_getD]
      rw [List.getElem?_eq_none (by simpa using hge), List.getElem?_eq_none hge]
      exact ⟨rfl, rfl⟩
  · simp [List.getD_eq_getElem?_getD, List.getElem?_set_ne (Ne.symm hij)]

lemma sameTimes_resize (cal : Calendar) (i c : Nat) : SameTimes cal (resize cal i c) := by
  simp only [resize]
  exact sameTimes_setEv rfl rfl rfl

lemma resizeCluster_fields (cal : Calendar) (idx c : Nat) :
    (resizeCluster cal idx c).events_calculated = cal.events_calculated ∧
    (resizeCluster cal idx c).events = cal.events ∧
    (resizeCluster cal idx c).width = cal.width := by
  unfold resizeCluster
  generalize cal.collision_clusters.getD idx [] = l
  induction l generalizing cal with
  | nil => exact ⟨rfl, rfl, rfl⟩
  | cons x xs ih => exact ih (resize cal x c)

lemma sameTimes_resizeCluster (cal : Calendar) (idx c : Nat) :
    SameTimes cal (resizeCluster cal idx c) := by
  unfold resizeCluster
  generalize cal.collision_clusters.getD idx [] = l
  induction l generalizing cal with
  | nil => exact sameTimes_refl cal
  | cons x xs ih => exact sameTimes_trans (sameTimes_resize cal x c) (ih (resize cal x c))

lemma sameTimes_determineCollidingEvents (cal : Calendar) (i : Nat) :
    SameTimes cal (determineCollidingEvents cal i) := by
  simp only [determineCollidingEvents]
  exact sameTimes_setEv rfl rfl rfl

lemma sameTimes_placePrep (cal : Calendar) (c i : Nat) : SameTimes cal (placePrep cal c i) := by
  simp only [placePrep]
  refine sameTimes_trans ?_
    (sameTimes_determineCollidingEvents
      (setEv { cal with events_calculated := pushToCell cal.events_calculated (c - 1) i } i
        { getEv { cal with events_calculated := pushToCell cal.events_calculated (c - 1) i } i with
            column := c }) i)
  exact sameTimes_setEv rfl rfl rfl

lemma placePrep_cells (cal : Calendar) (c i : Nat) :
    (placePrep cal c i).events_calculated = pushToCell cal.events_calculated (c - 1) i := rfl

lemma placeEvent_cells_times {cal : Calendar} {c i : Nat} {cal' : Calendar}
    (hp : placeEvent cal c i = some cal') :
    cal'.events_calculated = pushToCell cal.events_calculated (c - 1) i ∧
      SameTimes cal cal' := by
  simp only [placeEvent, Option.map_eq_some'] at hp
  obtain ⟨⟨cal4, idx⟩, hdc, hres⟩ := hp
  have hfields := determineCollisionClusters_fields hdc
  constructor
  · rw [← hres, (resizeCluster_fields cal4 idx c).1, hfields.2.2.2]
    exact placePrep_cells cal c i
  · rw [← hres]
    refine sameTimes_trans ?_ (sameTimes_resizeCluster cal4 idx c)
    intro j
    rw [getEv_congr_store hfields.1 j]
    exact sameTimes_placePrep cal c i j

lemma placedOK_placeEvent {cal : Calendar} {c i : Nat} {cal' : Calendar}
    (h : placedOK cal)
    (hg : getCollidingEvents cal (getEv cal i) c = some [])
    (hp : placeEvent cal c i = some cal') : placedOK cal' := by
  obtain ⟨hcells, htimes⟩ := placeEvent_cells_times hp
  obtain ⟨cell0, hcell0, hfilter⟩ : ∃ cell0, cal.events_calculated.get? (c - 1) = some cell0 ∧
      cell0.filter (fun cid => checkCollision (getEv cal i) (getEv cal cid)) = [] := by
    unfold getCollidingEvents at hg
    rcases hq : cal.events_calculated.get? (c - 1) with _ | cell0
    · rw [hq] at hg
      simp at hg
    · rw [hq] at hg
      rw [Option.map_some', Option.some.injEq] at hg
      exact ⟨cell0, rfl, hg⟩
  have hnocol : ∀ x ∈ cell0, checkCollision (getEv cal i) (getEv cal x) = false := by
    intro x hx
    have := List.filter_eq_nil_iff.1 hfilter x hx
    simpa using this
  intro cell hcellmem
  rw [hcells] at hcellmem
  unfold pushToCell at hcellmem
  rcases List.mem_or_eq_of_mem_set hcellmem with hold | rfl
  · exact cellOK_of_sameTimes htimes (h cell hold)
  · refine cellOK_of_sameTimes htimes ?_
    have hgetD : cal.events_calculated.getD (c - 1) [] = cell0 := by
      rw [List.getD_eq_getElem?_getD, ← List.get?_eq_getElem?, hcell0]
      rfl
    rw [hgetD]
    unfold cellOK
    rw [List.pairwise_append]
    refine ⟨h cell0 (List.get?_mem hcell0), List.pairwise_singleton _ _, ?_⟩
    intro x hx y hy
    rw [List.mem_singleton] at hy
    subst hy
    rw [checkCollision_symm]
    exact hnocol x hx

/-- C10: within each cell of the placed-events structure, events are pairwise
non-colliding, at every point during the layout — the property holds for the
initial calendar and is preserved by each of the algorithm's state-changing
steps (resetting the current column's cell, replacing the remaining-events
list, and a guarded placement), so it holds in every reachable state. -/
theorem column_cells_collision_free :
    (∀ l : List RawEvent, placedOK (sortEvents (Calendar.new l))) ∧
    (∀ (cal : Calendar) (i : Nat), placedOK cal →
      placedOK { cal with events_calculated := resetCell cal.events_calculated i }) ∧
    (∀ (cal : Calendar) (rem : List Nat), placedOK cal → placedOK { cal with events := rem }) ∧
    (∀ (cal : Calendar) (c i : Nat) (cal' : Calendar), placedOK cal →
      getCollidingEvents cal (getEv cal i) c = some [] →
      placeEvent cal c i = some cal' → placedOK cal') := by
  refine ⟨?_, ?_, ?_, ?_⟩
  · intro l cell hmem
    simp only [sortEvents, Calendar.new] at hmem
    exact absurd hmem (List.not_mem_nil _)
  · intro cal i h cell hmem
    simp only [resetCell] at hmem
    by_cases hlen : i < cal.events_calculated.length
    · rw [if_pos hlen] at hmem
      rcases List.mem_or_eq_of_mem_set hmem with hold | rfl
      · exact h cell hold
      · exact List.Pairwise.nil
    · rw [if_neg hlen] at hmem
      rcases List.mem_append.1 hmem with hold | hnew
      · exact h cell hold
      · rw [List.mem_singleton] at hnew
        subst hnew
        exact List.Pairwise.nil
  · intro cal rem h
    exact h
  · intro cal c i cal' h hg hp
    exact placedOK_placeEvent h hg hp

/-- A one-event calendar state at the start of the first column pass. -/
def wCalC10a : Calendar :=
  ⟨Q.mk 600 1, [⟨0, Q.mk 0 1, Q.mk 1 1, Q.mk 0 1, Q.mk 600 1, [], 1⟩], [0], [[]], []⟩

/-- The state after placing its event into column 1. -/
def wCalC10b : Calendar :=
  ⟨Q.mk 600 1, [⟨0, Q.mk 0 1, Q.mk 1 1, Q.mk 0 1, Q.mk 600 1, [], 1⟩], [0], [[0]], [[0]]⟩

theorem column_cells_collision_free_witness : placedOK wCalC10b := by
  refine column_cells_collision_free.2.2.2 wCalC10a 1 0 wCalC10b ?_ (by decide) (by decide)
  intro cell hmem
  rw [show wCalC10a.events_calculated = [[]] from rfl, List.mem_singleton] at hmem
  subst hmem
  exact List.Pairwise.nil

/-! ### C6: termination of the outer column loop -/

/-- The run exhausted its fuel (never happens once the fuel reaches the
number of events). -/
def isFuelOut : LayoutOutcome → Bool
  | .ok _ => false
  | .crash => false
  | .fuelOut _ => true

lemma scanEvents_rem_length : ∀ (rem : List Nat) {cal : Calendar} {c : Nat}
    {cal' : Calendar} {rem' : List Nat},
    scanEvents cal c rem = some (cal', rem') → rem'.length ≤ rem.length := by
  intro rem
  induction rem with
  | nil =>
    intro cal c cal' rem' hs
    rw [scanEvents, Option.some.injEq, Prod.mk.injEq] at hs
    obtain ⟨-, h2⟩ := hs
    subst h2
    exact Nat.le_refl _
  | cons e rest ih =>
    intro cal c cal' rem' hs
    rw [scanEvents] at hs
    rcases hg : getCollidingEvents cal (getEv cal e) c with _ | colls
    · rw [hg] at hs
      simp at hs
    · simp only [hg] at hs
      by_cases hemp : colls.isEmpty
      · rw [if_pos hemp] at hs
        rcases hp : placeEvent cal c e with _ | cal1
        · rw [hp] at hs
          simp at hs
        · simp only [hp] at hs
          exact (ih hs).trans (Nat.le_succ _)
      · rw [if_neg hemp] at hs
        rw [Option.map_eq_some'] at hs
        obtain ⟨⟨cal1, rem1⟩, hs1, hs2⟩ := hs
        rw [Prod.mk.injEq] at hs2
        obtain ⟨-, h2⟩ := hs2
        subst h2
        exact Nat.succ_le_succ (ih hs1)

lemma scanEvents_cons_none {cal : Calendar} {c e : Nat} {rest : List Nat}
    (h : cal.events_calculated.get? (c - 1) = none) :
    scanEvents cal c (e :: rest) = none := by
  rw [scanEvents]
  unfold getCollidingEvents
  rw [h]
  rfl

/-- The first remaining event never collides with the freshly emptied column:
when the current cell is empty the scan of a nonempty list commits at least
one event. -/
lemma scanEvents_progress {cal : Calendar} {c e : Nat} {rest : List Nat}
    {cal' : Calendar} {rem' : List Nat}
    (hcell : cal.events_calculated.get? (c - 1) = some [])
    (hs : scanEvents cal c (e :: rest) = some (cal', rem')) :
    rem'.length < (e :: rest).length := by
  rw [scanEvents] at hs
  have hg : getCollidingEvents cal (getEv cal e) c = some [] := by
    unfold getCollidingEvents
    rw [hcell]
    rfl
  simp only [hg, List.isEmpty_nil, if_true] at hs
  rcases hp : placeEvent cal c e with _ | cal1
  · rw [hp] at hs
    simp at hs
  · simp only [hp] at hs
    exact Nat.lt_succ_of_le (scanEvents_rem_length rest hs)

lemma resetCell_get? (cells : List (List Nat)) (i : Nat) :
    (resetCell cells i).get? i = some [] ∨ (resetCell cells i).get? i = none := by
  unfold resetCell
  by_cases h : i < cells.length
  · rw [if_pos h]
    left
    rw [List.get?_eq_getElem?]
    exact List.getElem?_set_self h
  · rw [if_neg h]
    rcases Nat.lt_or_ge i (cells ++ [[]]).length with hlt | hge
    · left
      have hi : i = cells.length := by
        rw [List.length_append] at hlt
        simp at hlt
        omega
      subst hi
      rw [List.get?_eq_getElem?]
      exact List.getElem?_concat_length cells []
    · right
      rw [List.get?_eq_getElem?]
      exact List.getElem?_eq_none hge

lemma calcLoop_not_fuelOut : ∀ (fuel : Nat) (cal : Calendar) (c : Nat),
    cal.events.length ≤ fuel → isFuelOut (calcLoop fuel cal c) = false := by
  intro fuel
  induction fuel with
  | zero =>
    intro cal c h
    have hnil : cal.events = [] := List.length_eq_zero.1 (Nat.le_zero.1 h)
    rw [calcLoop.eq_def, if_pos (by rw [hnil]; rfl)]
    rfl
  | succ fuel ih =>
    intro cal c h
    rw [calcLoop.eq_def]
    by_cases hemp : cal.events.isEmpty
    · rw [if_pos hemp]
      rfl
    · rw [if_neg hemp]
      rcases hr : runPass cal c with _ | ⟨cal2, rem⟩
      · simp only [hr]
        rfl
      · simp only [hr]
        refine ih _ _ ?_
        show rem.length ≤ fuel
        rcases hev : cal.events with _ | ⟨e, rest⟩
        · exact absurd (by rw [hev]; rfl) hemp
        · have hr' := hr
          unfold runPass at hr'
          rw [hev] at hr'
          rcases resetCell_get? cal.events_calculated (c - 1) with hc1 | hc1
          · have hlt := scanEvents_progress hc1 hr'
            have hlen : cal.events.length ≤ fuel + 1 := h
            rw [hev] at hlen
            simp only [List.length_cons] at hlt hlen
            omega
          · rw [scanEvents_cons_none hc1] at hr'
            simp at hr'

/-- C6: `calculateEventPositions` terminates on every finite input — running
the outer loop with fuel equal to the number of events never exhausts the
fuel, because each pass of the outer column loop removes at least one event
from the unplaced set: the first remaining event never collides with the
freshly emptied current column (second conjunct). -/
theorem calculateEventPositions_terminates :
    (∀ l : List RawEvent, isFuelOut (layOutDay l) = false) ∧
    (∀ (cal : Calendar) (column : Nat) (cal' : Calendar) (rem' : List Nat),
      cal.events_calculated.get? (column - 1) = some [] →
      cal.events ≠ [] →
      scanEvents cal column cal.events = some (cal', rem') →
      rem'.length < cal.events.length) := by
  constructor
  · intro l
    simp only [layOutDay]
    exact calcLoop_not_fuelOut _ _ 1 (Nat.le_refl _)
  · intro cal column cal' rem' hcell hne hs
    rcases hev : cal.events with _ | ⟨e, rest⟩
    · exact absurd hev hne
    · rw [hev] at hs
      exact scanEvents_progress hcell hs

theorem calculateEventPositions_terminates_witness :
    wCalC10a.events_calculated.get? 0 = some [] ∧ wCalC10a.events ≠ [] ∧
    ([] : List Nat).length < wCalC10a.events.length :=
  ⟨rfl, by decide,
    calculateEventPositions_terminates.2 wCalC10a 1 wCalC10b [] rfl (by decide) (by decide)⟩


end CalendarJS
